import Mathlib

/-!
# Verification of the m2tie-app-backend response/aggregation core

Shallow embedding of the response-submission state machine
(`src/routes/responseRoutes.js`), the dashboard aggregation endpoints
(`src/unnamed/part_002`, the dashboards router) and the legacy form
lifecycle (`src/routes/formRoutes.js`) of the m2tie-app-backend
repository, together with proofs about the claims on that code.

Conventions of the embedding:
* MongoDB ObjectIds are strings; `isValidObjectId` models
  `mongoose.Types.ObjectId.isValid` on string input (24 hex chars).
* The document store is a `Store` of four in-memory collections
  (lists); `findOne` is `List.find?`, `updateMany` is a `List.map`
  guarded by the filter, `findOneAndUpdate` updates the first match.
* JavaScript dynamic answer values are the type `JsVal`
  (undefined / null / string / array-of-string).
* JavaScript numbers produced by the aggregator are `JsNum`
  (an integral value, NaN, or plus/minus Infinity — see `JsNum` for
  why integers suffice); floating point rounding never matters for
  the concrete values appearing in this file.
* Timestamps are natural numbers, milliseconds since the epoch; the
  calendar-day window `[00:00:00.000, 23:59:59.999]` of
  `setHours(0,0,0,0)` / `setHours(23,59,59,999)` is modelled over a
  fixed (UTC-like) timezone, which preserves all day-boundary
  arithmetic of the claims.
-/

/-- Hex digit test used by the ObjectId validity model. -/
def isHexDigit (c : Char) : Bool :=
  c.isDigit || (('a' ≤ c) && (c ≤ 'f')) || (('A' ≤ c) && (c ≤ 'F'))

/-- Models `mongoose.Types.ObjectId.isValid` applied to a string:
a 24-character hexadecimal string. -/
def isValidObjectId (s : String) : Bool :=
  s.length == 24 && s.toList.all isHexDigit

/-- A dynamic JavaScript answer value as it appears in request bodies
and stored response documents: `undefined`, `null`, a string, or an
array of strings. -/
inductive JsVal where
  | undef
  | jsNull
  | str (s : String)
  | arr (l : List String)
deriving DecidableEq, Repr

/-- One `answers` entry of a response: `questionId` (an ObjectId
rendered as a string) and `answer`. -/
structure Answer where
  questionId : String
  answer : JsVal
deriving DecidableEq, Repr

/-- `models/question.js` question types. -/
inductive QType where
  | text
  | multiple_choice
  | checkbox
  | dropdown
  | scale
  | date
deriving DecidableEq, Repr

/-- One entry of a question's `options` list. -/
structure QOption where
  label : String
  value : String
deriving DecidableEq, Repr

/-- A question document (`models/question.js`). The `validation`
subdocument is not read by any route embedded here and is omitted. -/
structure Question where
  _id : String
  title : String
  type : QType
  options : List QOption
  deleted : Bool
deriving DecidableEq, Repr

/-- One entry of a form's `questions` list. -/
structure FormQuestion where
  questionId : String
  order : Int
  required : Bool
deriving DecidableEq, Repr

/-- The form `type` enum: `form` or `diary`. -/
inductive FType where
  | form
  | diary
deriving DecidableEq, Repr

/-- A form document (the current revision of the form schema: title,
description, type, questions, assignedUsers, isActive, deleted). -/
structure Form where
  _id : String
  title : String
  description : String
  type : FType
  questions : List FormQuestion
  assignedUsers : List String
  isActive : Bool
  deleted : Bool
deriving DecidableEq, Repr

/-- User roles (`models/user.js`). -/
inductive Role where
  | admin
  | student
  | teacher_analyst
  | teacher_respondent
deriving DecidableEq, Repr

/-- A user document (`models/user.js`), restricted to the fields the
embedded routes read. -/
structure User where
  _id : String
  name : String
  email : String
  role : Role
  deleted : Bool
deriving DecidableEq, Repr

/-- Modelled from the spec: the file `models/response.js` is not under
`src/`; its fields and creation defaults follow the specification's
data model (a Response has formId, userId, answers, isDraft,
submittedAt, lastModified, deleted) and its submission rule
("persist a new final Response with isDraft=false, submittedAt=now").
`new Response(...)` therefore defaults `isDraft` to `false`,
`submittedAt` to the current time and `deleted` to `false`. The `_id`
field is never read by the embedded routes and is omitted. -/
structure Response where
  formId : String
  userId : String
  answers : List Answer
  isDraft : Bool
  submittedAt : Nat
  lastModified : Option Nat
  deleted : Bool
deriving DecidableEq, Repr

/-- The document store: the four collections used by the embedded
routes. -/
structure Store where
  users : List User
  questions : List Question
  forms : List Form
  responses : List Response
deriving DecidableEq, Repr

/-- `User.findOne(\x7b _id: uid, deleted: false \x7d)`. -/
def findUserLive (s : Store) (uid : String) : Option User :=
  s.users.find? (fun u => u._id == uid && !u.deleted)

/-- `User.findOne(\x7b _id: uid \x7d)` (no deleted filter). -/
def findUserAny (s : Store) (uid : String) : Option User :=
  s.users.find? (fun u => u._id == uid)

/-- `Form.findOne(\x7b _id: fid \x7d)` (no deleted filter). -/
def findFormAny (s : Store) (fid : String) : Option Form :=
  s.forms.find? (fun f => f._id == fid)

/-- `Form.findOne(\x7b _id: fid, deleted: false \x7d)`. -/
def findFormLive (s : Store) (fid : String) : Option Form :=
  s.forms.find? (fun f => f._id == fid && !f.deleted)

/-- `Question.findOne(\x7b _id: qid \x7d)`: also the resolution
performed by a `populate('questions.questionId')` without a `match`
filter. -/
def findQuestionAny (s : Store) (qid : String) : Option Question :=
  s.questions.find? (fun q => q._id == qid)

/-- Resolution performed by `populate` with `match: \x7b deleted:
false \x7d`: a deleted or missing referent populates as null. -/
def findQuestionLive (s : Store) (qid : String) : Option Question :=
  s.questions.find? (fun q => q._id == qid && !q.deleted)

/-- First-occurrence deduplication; the observable content of
`new Set(xs)` (its size and iteration order). -/
def dedupFirst [BEq α] (l : List α) : List α :=
  l.foldl (fun acc x => if acc.contains x then acc else acc ++ [x]) []

/-- Update the first element satisfying `p` (the semantics of a
Mongo single-document update such as `doc.save()` after `findOne`,
or `findOneAndUpdate`). -/
def updateFirst (p : α → Bool) (f : α → α) : List α → List α
  | [] => []
  | x :: xs => if p x then f x :: xs else x :: updateFirst p f xs

/-- Frequency tally, mirroring `counts[k] = (counts[k] || 0) + 1`
folded over a list. Keys are listed in first-occurrence order;
JavaScript additionally reorders nonnegative-integer-like object keys
ascending, which coincides with first-occurrence order for every
concrete input considered in this development. -/
def bumpKey [BEq α] (k : α) : List (α × Nat) → List (α × Nat)
  | [] => [(k, 1)]
  | (k', n) :: rest => if k' == k then (k', n + 1) :: rest else (k', n) :: bumpKey k rest

/-- Fold a list of keys into a frequency association list. -/
def tally [BEq α] (l : List α) : List (α × Nat) :=
  l.foldl (fun acc k => bumpKey k acc) []

/-- A JavaScript number as produced by the aggregator: a finite
value, `NaN`, `Infinity` or `-Infinity`. Every numeric value the
aggregator manipulates is integral (parsed integers, counts,
timestamps) except the scale average, which is only ever rendered to
its two-decimal string and is computed exactly by `divToFixed2`
below; `num` therefore carries an integer. -/
inductive JsNum where
  | num (n : Int)
  | nan
  | inf
  | negInf
deriving DecidableEq, Repr

/-- JavaScript `+` on numbers (the cases reachable here). -/
def JsNum.add : JsNum → JsNum → JsNum
  | .nan, _ => .nan
  | _, .nan => .nan
  | .num a, .num b => .num (a + b)
  | .inf, .negInf => .nan
  | .negInf, .inf => .nan
  | .inf, _ => .inf
  | _, .inf => .inf
  | .negInf, _ => .negInf
  | _, .negInf => .negInf

/-- Exact rendering of `num / den` (nonnegative numerator, positive
denominator) to two decimals, rounding half away from zero — the
value of `(num / den).toFixed(2)` for every quotient that is exactly
representable (all concrete quotients in this development are). -/
def fracToFixed2 (num den : Nat) : String :=
  let c : Nat := (num * 200 + den) / (2 * den)
  let whole := c / 100
  let frac := c % 100
  (toString whole) ++ "." ++ (if frac < 10 then "0" else "") ++ toString frac

/-- `(sum / len).toFixed(2)`: JavaScript division of the integral
`sum` by the list length followed by `toFixed(2)`; `0 / 0` is `NaN`
and `x / 0` is signed infinity for nonzero `x`. -/
def divToFixed2 : JsNum → Nat → String
  | .nan, _ => "NaN"
  | .inf, _ => "Infinity"
  | .negInf, _ => "-Infinity"
  | .num n, len =>
      if len = 0 then
        if n = 0 then "NaN" else if 0 < n then "Infinity" else "-Infinity"
      else (if n < 0 then "-" else "") ++ fracToFixed2 n.natAbs len

/-- `Math.min(...l)`: `Infinity` on the empty list, `NaN` when any
element is `NaN`. -/
def jsMinList (l : List JsNum) : JsNum :=
  l.foldl
    (fun acc x =>
      match acc, x with
      | .nan, _ => .nan
      | _, .nan => .nan
      | .num a, .num b => .num (if a ≤ b then a else b)
      | .inf, y => y
      | y, .inf => y
      | .negInf, _ => .negInf
      | _, .negInf => .negInf)
    .inf

/-- `Math.max(...l)`: `-Infinity` on the empty list, `NaN` when any
element is `NaN`. -/
def jsMaxList (l : List JsNum) : JsNum :=
  l.foldl
    (fun acc x =>
      match acc, x with
      | .nan, _ => .nan
      | _, .nan => .nan
      | .num a, .num b => .num (if a ≤ b then b else a)
      | .negInf, y => y
      | y, .negInf => y
      | .inf, _ => .inf
      | _, .inf => .inf)
    .negInf

/-- Value of a list of decimal digit characters. -/
def digitsVal (l : List Char) : Nat :=
  l.foldl (fun acc c => acc * 10 + (c.toNat - '0'.toNat)) 0

/-- JavaScript `parseInt` (radix 10 on the inputs occurring here):
skip leading spaces, optional sign, then the longest leading run of
decimal digits; `NaN` when that run is empty. -/
def parseIntJS (s : String) : JsNum :=
  match s.toList.dropWhile (fun c => c == ' ') with
  | [] => .nan
  | c :: rest =>
      let signAndDigits :=
        if c == '-' then (true, rest)
        else if c == '+' then (false, rest)
        else (false, c :: rest)
      let ds := signAndDigits.2.takeWhile Char.isDigit
      if ds.isEmpty then .nan
      else if signAndDigits.1 then .num (-(digitsVal ds : Int))
      else .num ((digitsVal ds : Int))

/-- JavaScript string coercion `String(v)` of an answer value, as used
by `parseInt(a)` and by object-key coercion: arrays join with `,`. -/
def jsToString : JsVal → String
  | .undef => "undefined"
  | .jsNull => "null"
  | .str s => s
  | .arr l => String.intercalate "," l

/-- `String.prototype.trim` (whitespace stripped from both ends),
modelled over the character list so that it evaluates in the kernel. -/
def jsTrim (s : String) : String :=
  ⟨((s.toList.dropWhile Char.isWhitespace).reverse.dropWhile Char.isWhitespace).reverse⟩

/-- Tail of `splitOnChar`: accumulate the current field (reversed)
and cut at each separator. -/
def splitOnCharGo (sep : Char) : List Char → List Char → List String
  | [], acc => [⟨acc.reverse⟩]
  | c :: rest, acc =>
      if c == sep then ⟨acc.reverse⟩ :: splitOnCharGo sep rest []
      else splitOnCharGo sep rest (c :: acc)

/-- `str.split(sep)` for a one-character separator (the only kind
this repository uses), modelled over the character list so that it
evaluates in the kernel; on the empty string it yields `[""]`, as in
JavaScript. -/
def splitOnChar (sep : Char) (s : String) : List String :=
  splitOnCharGo sep s.toList []

/-- Milliseconds per calendar day. -/
def msPerDay : Nat := 86400000

/-- `today.setHours(0, 0, 0, 0)`: start of the calendar day of `now`. -/
def dayStart (now : Nat) : Nat := now - now % msPerDay

/-! ## Response routes (`src/routes/responseRoutes.js`) -/

/-- The `answers` field of a request body: absent/falsy, present but
not an array, or an array. -/
inductive AnswersIn where
  | missing
  | notArray
  | arr (l : List Answer)
deriving DecidableEq, Repr

/-- The distinct outcomes of `POST /api/responses` (submit); each
error constructor corresponds to one `return res.status(...)` of the
handler, in source order. `serverError` models a thrown `TypeError`
(dereferencing a question reference that populated to null), caught
by the handler's `catch`. -/
inductive SubmitErr where
  | userNotFound
  | invalidFormId
  | formNotFound
  | formNotActive
  | alreadyAnsweredToday
  | invalidAnswersFormat
  | invalidQuestionIds
  | questionNotInForm
  | duplicateQuestion
  | emptyAnswerValue
  | requiredMissing (title : String)
  | alreadyAnswered
  | serverError
deriving DecidableEq, Repr

/-- Result of a submit call. -/
inductive SubmitOut where
  | err (e : SubmitErr)
  | ok (r : Response)
deriving DecidableEq, Repr

/-- Filter of the global one-shot check and of `finalCount`: a
non-deleted, non-draft response for the pair. -/
def isLiveFinalFor (fid uid : String) (r : Response) : Bool :=
  r.formId == fid && r.userId == uid && !r.deleted && !r.isDraft

/-- `Response.findOne(\x7b formId, userId, deleted: false, isDraft:
false \x7d)` seen as existence. -/
def hasLiveFinal (s : Store) (fid uid : String) : Bool :=
  s.responses.any (isLiveFinalFor fid uid)

/-- Filter shared by the draft lookup (`GET /draft/:formId`) and the
draft soft-delete `updateMany` of submit: a non-deleted draft for the
pair. -/
def isLiveDraftFor (fid uid : String) (r : Response) : Bool :=
  r.formId == fid && r.userId == uid && !r.deleted && r.isDraft

/-- The diary daily-cap query of submit:
`Response.findOne(\x7b formId, userId, deleted: false, submittedAt:
\x7b $gte: today, $lte: todayEnd \x7d \x7d)` — note the source query
has no `isDraft` filter here. -/
def diaryConflict (s : Store) (fid uid : String) (now : Nat) : Bool :=
  let today := dayStart now
  let todayEnd := today + (msPerDay - 1)
  s.responses.any (fun r =>
    r.formId == fid && r.userId == uid && !r.deleted &&
    decide (today ≤ r.submittedAt) && decide (r.submittedAt ≤ todayEnd))

/-- `form.questions.map(q => q.questionId._id.toString())` on the
populated form: dereferencing a reference that populated to null
throws, modelled by `none`. -/
def resolveFormQuestionIds (s : Store) (qs : List FormQuestion) : Option (List String) :=
  qs.mapM (fun fq => (findQuestionAny s fq.questionId).map (fun q => q._id))

/-- The per-answer validations of submit, executed only when
`answers.length > 0`: id format, membership in the form's question
list, duplicates, and presence of a value (`undefined`, `null` and
`''` are rejected). -/
def perAnswerCheck (s : Store) (form : Form) (answers : List Answer) : Option SubmitErr :=
  if answers.length > 0 then
    let answerQuestionIds := answers.map (fun a => a.questionId)
    if (answerQuestionIds.filter (fun id => !isValidObjectId id)).length > 0 then
      some .invalidQuestionIds
    else
      match resolveFormQuestionIds s form.questions with
      | none => some .serverError
      | some formQuestionIds =>
        if answerQuestionIds.any (fun aq => !formQuestionIds.contains aq) then
          some .questionNotInForm
        else if (dedupFirst answerQuestionIds).length != answerQuestionIds.length then
          some .duplicateQuestion
        else if answers.any (fun a =>
            a.answer == JsVal.undef || a.answer == JsVal.jsNull || a.answer == JsVal.str "") then
          some .emptyAnswerValue
        else none
  else none

/-- The required-question loop of submit: for each required form
question in order, dereference its populated question (throw when it
populated to null), then require a matching answer, reporting the
missing question's title. -/
def requiredCheck (s : Store) (answeredIds : List String) : List FormQuestion → Option SubmitErr
  | [] => none
  | fq :: rest =>
      match findQuestionAny s fq.questionId with
      | none => some .serverError
      | some q =>
          if answeredIds.contains q._id then requiredCheck s answeredIds rest
          else some (.requiredMissing q.title)

/-- The full validation sequence of `POST /api/responses`, in source
order; `none` means every check passed. The form lookup
`Form.findOne(\x7b _id: formId \x7d)` has NO `deleted: false` filter
in the source, and the global one-shot check at the end is not
restricted to non-diary forms. -/
def submitCheck (s : Store) (userId formId : String) (answers : AnswersIn) (now : Nat) :
    Option SubmitErr :=
  match findUserLive s userId with
  | none => some .userNotFound
  | some _user =>
  if formId == "" || !isValidObjectId formId then some .invalidFormId
  else
    match findFormAny s formId with
    | none => some .formNotFound
    | some form =>
      if !form.isActive then some .formNotActive
      else if form.type == FType.diary && diaryConflict s formId userId now then
        some .alreadyAnsweredToday
      else
        match answers with
        | .missing => some .invalidAnswersFormat
        | .notArray => some .invalidAnswersFormat
        | .arr l =>
          match perAnswerCheck s form l with
          | some e => some e
          | none =>
            match requiredCheck s (l.map (fun a => a.questionId))
                (form.questions.filter (fun q => q.required)) with
            | some e => some e
            | none =>
              if hasLiveFinal s formId userId then some .alreadyAnswered
              else none

/-- The draft soft-delete of submit:
`Response.updateMany(\x7b formId, userId, isDraft: true, deleted:
false \x7d, \x7b $set: \x7b deleted: true \x7d \x7d)`. -/
def softDeleteDrafts (fid uid : String) (responses : List Response) : List Response :=
  responses.map (fun r => if isLiveDraftFor fid uid r then { r with deleted := true } else r)

/-- `POST /api/responses` — submit. On any validation failure the
store is unchanged; on success the pair's live drafts are
soft-deleted and a new final response is appended (its `formId` and
`userId` are written from `form._id.toString()` and
`user._id.toString()`, which the passed lookups guarantee equal the
request's `formId` and the token's `userId`). -/
def submit (s : Store) (userId formId : String) (answers : AnswersIn) (now : Nat) :
    SubmitOut × Store :=
  match submitCheck s userId formId answers now with
  | some e => (.err e, s)
  | none =>
      let l := match answers with | .arr l => l | _ => []
      let newResp : Response :=
        { formId := formId, userId := userId,
          answers := l.map (fun a => { questionId := a.questionId, answer := a.answer }),
          isDraft := false, submittedAt := now, lastModified := none, deleted := false }
      (.ok newResp,
        { s with responses := softDeleteDrafts formId userId s.responses ++ [newResp] })

/-- The distinct outcomes of `POST /api/responses/draft`. -/
inductive DraftErr where
  | userNotFound
  | invalidFormId
  | formNotFound
  | formNotActive
  | invalidAnswersFormat
  | invalidQuestionIds
  | questionNotInForm
deriving DecidableEq, Repr

/-- Result of a draft save: update of the existing draft (200) or
creation of a new one (201). -/
inductive DraftOut where
  | err (e : DraftErr)
  | updated (r : Response)
  | created (r : Response)
deriving DecidableEq, Repr

/-- Validation sequence of `POST /api/responses/draft`; `none` means
every check passed. Unlike submit, absent answers are allowed, the
form lookup filters `deleted: false`, the form is not populated (so
question membership compares raw ids) and there is no duplicate,
empty-value or required check. -/
def saveDraftCheck (s : Store) (userId formId : String) (answers : AnswersIn) :
    Option DraftErr :=
  match findUserLive s userId with
  | none => some .userNotFound
  | some _user =>
  if formId == "" || !isValidObjectId formId then some .invalidFormId
  else
    match findFormLive s formId with
    | none => some .formNotFound
    | some form =>
      if !form.isActive then some .formNotActive
      else
        match answers with
        | .notArray => some .invalidAnswersFormat
        | .missing => none
        | .arr l =>
          if l.length > 0 then
            let ids := l.map (fun a => a.questionId)
            if (ids.filter (fun id => !isValidObjectId id)).length > 0 then
              some .invalidQuestionIds
            else
              let formQuestionIds := form.questions.map (fun q => q.questionId)
              if ids.any (fun aq => !formQuestionIds.contains aq) then
                some .questionNotInForm
              else none
          else none

/-- `POST /api/responses/draft` — save a draft. An existing live
draft for the pair is overwritten in place (`answers` replaced,
`lastModified` refreshed); otherwise a new draft is created with
`isDraft: true` (its `submittedAt` takes the schema default, the
current time — see `Response`). -/
def saveDraft (s : Store) (userId formId : String) (answers : AnswersIn) (now : Nat) :
    DraftOut × Store :=
  match saveDraftCheck s userId formId answers with
  | some e => (.err e, s)
  | none =>
      let answersOrEmpty := match answers with | .arr l => l | _ => []
      match s.responses.find? (isLiveDraftFor formId userId) with
      | some d =>
          let d' := { d with answers := answersOrEmpty, lastModified := some now }
          (.updated d',
            { s with responses :=
                (updateFirst (isLiveDraftFor formId userId)
                  (fun r => { r with answers := answersOrEmpty, lastModified := some now })
                  s.responses) })
      | none =>
          let draft : Response :=
            { formId := formId, userId := userId, answers := answersOrEmpty,
              isDraft := true, submittedAt := now, lastModified := some now,
              deleted := false }
          (.created draft, { s with responses := s.responses ++ [draft] })

/-- Result of `GET /api/responses/draft/:formId`. -/
inductive GetDraftOut where
  | userNotFound
  | invalidFormId
  | noDraft
  | found (r : Response)
deriving DecidableEq, Repr

/-- `GET /api/responses/draft/:formId` — fetch the live draft for the
pair (the populate on `answers.questionId` only decorates the
returned document and is not modelled). -/
def getDraft (s : Store) (userId formId : String) : GetDraftOut :=
  match findUserLive s userId with
  | none => .userNotFound
  | some _user =>
  if !isValidObjectId formId then .invalidFormId
  else
    match s.responses.find? (isLiveDraftFor formId userId) with
    | some d => .found d
    | none => .noDraft

/-- Result of `GET /api/responses/diary/:formId/can-respond`. -/
inductive CanRespondOut where
  | userNotFound
  | formNotFound
  | notDiary
  | ok (canRespond : Bool)
deriving DecidableEq, Repr

/-- `GET /api/responses/diary/:formId/can-respond`: true when no
non-deleted, non-draft response of the pair falls in the current
calendar-day window. Unlike submit's diary check, this query DOES
filter `isDraft: false`; unlike submit's form lookup, this one
filters `deleted: false`. -/
def canRespondToday (s : Store) (userId formId : String) (now : Nat) : CanRespondOut :=
  match findUserLive s userId with
  | none => .userNotFound
  | some _user =>
  match findFormLive s formId with
  | none => .formNotFound
  | some form =>
    if form.type != FType.diary then .notDiary
    else
      let today := dayStart now
      let todayEnd := today + (msPerDay - 1)
      .ok (!(s.responses.any (fun r =>
        r.formId == formId && r.userId == userId && !r.deleted && !r.isDraft &&
        decide (today ≤ r.submittedAt) && decide (r.submittedAt ≤ todayEnd))))

/-! ## Dashboard routes (the dashboards router, `src/unnamed/part_002`) -/

/-- Parse a decimal natural, `none` when empty or not all digits. -/
def parseNat? (s : String) : Option Nat :=
  if s.length > 0 && s.toList.all Char.isDigit then some (digitsVal s.toList) else none

/-- Days from 1970-01-01 for Gregorian dates with year at least 1600
(sufficient for this model; earlier dates do not occur in the
repository). Standard civil-days computation. -/
def daysFromCivil1600 (y m d : Nat) : Int :=
  let y' := if m ≤ 2 then y - 1 else y
  let era := y' / 400
  let yoe := y' % 400
  let mp := (m + 9) % 12
  let doy := (153 * mp + 2) / 5 + (d - 1)
  let doe := yoe * 365 + yoe / 4 - yoe / 100 + doy
  (era * 146097 + doe : Int) - 719468

/-- `new Date(v).valueOf()` restricted to the ISO `YYYY-MM-DD` date
shape (with anything after a `T` ignored): the only date inputs this
repository produces. Anything else is an invalid date, `NaN`. No
claim of this development depends on date parsing. -/
def parseDateJS (v : JsVal) : JsNum :=
  match v with
  | .str s =>
      match (((splitOnChar '-' ((splitOnChar 'T' s).headD "")).map parseNat?)) with
      | [some y, some mo, some d] =>
          if 1600 ≤ y && 1 ≤ mo && mo ≤ 12 && 1 ≤ d && d ≤ 31 then
            .num (daysFromCivil1600 y mo d * (msPerDay : Int))
          else .nan
      | _ => .nan
  | _ => .nan

/-- Comparator order used to model `dates.sort((a, b) => a - b)`;
JavaScript leaves the order unspecified when the comparator returns
`NaN`, and the model fixes one such order. -/
def JsNum.leB : JsNum → JsNum → Bool
  | .nan, _ => true
  | _, .nan => false
  | .negInf, _ => true
  | _, .negInf => false
  | _, .inf => true
  | .inf, _ => false
  | .num a, .num b => decide (a ≤ b)

/-- `Array.isArray(a) ? a : a.split(',').map(s => s.trim())` of the
checkbox branches; calling `.split` on `undefined`/`null` throws,
modelled by `none`. -/
def checkboxOptions : JsVal → Option (List String)
  | .arr l => some l
  | .str s => some ((splitOnChar ',' s).map (fun x => jsTrim x))
  | _ => none

/-- The per-question analysis payload of
`GET /api/dashboards/analysis/:formId/:questionId`, one constructor
per branch of the switch on the question's type. -/
inductive Analysis where
  | text (totalAnswers : Nat) (answers : List JsVal)
  | choice (qtype : QType) (distribution : List (String × Nat)) (totalAnswers : Nat)
  | checkbox (distribution : List (String × Nat)) (totalAnswers : Nat)
  | scale (average : String) (minV maxV : JsNum) (distribution : List (JsNum × Nat))
      (totalAnswers : Nat)
  | date (earliest latest : Option JsNum) (answers : List JsVal) (totalAnswers : Nat)
deriving DecidableEq, Repr

/-- The answer-extraction pipeline of the single-question analysis:
per response, keep the answers whose `questionId` matches (the
truthiness guard `a.questionId &&` excludes a falsy id), take the
first one's value, and drop `undefined` (responses that skipped the
question). -/
def questionAnswers (responses : List Response) (questionId : String) : List JsVal :=
  (responses.filterMap (fun r =>
    ((r.answers.filter (fun a => a.questionId != "" && a.questionId == questionId)).head?).map
      (fun a => a.answer))).filter (fun a => a != JsVal.undef)

/-- The switch of the single-question analysis. The scale branch
computes `sum / length` with NO zero-answer guard: with zero numeric
answers the average is `0 / 0 = NaN` and `Math.min` / `Math.max` of
no arguments give plus/minus Infinity. `none` models the checkbox
branch throwing on a non-string, non-array value. -/
def analyzeByType (qt : QType) (answers : List JsVal) : Option Analysis :=
  match qt with
  | .text => some (.text answers.length answers)
  | .multiple_choice =>
      some (.choice .multiple_choice (tally (answers.map jsToString)) answers.length)
  | .dropdown =>
      some (.choice .dropdown (tally (answers.map jsToString)) answers.length)
  | .checkbox =>
      match answers.mapM checkboxOptions with
      | none => none
      | some lists => some (.checkbox (tally lists.flatten) answers.length)
  | .scale =>
      let scaleValues := answers.map (fun a => parseIntJS (jsToString a))
      some (.scale (divToFixed2 (scaleValues.foldl JsNum.add (.num 0)) scaleValues.length)
        (jsMinList scaleValues) (jsMaxList scaleValues)
        (tally scaleValues) answers.length)
  | .date =>
      let sorted := (answers.map parseDateJS).mergeSort JsNum.leB
      some (.date sorted.head? sorted.getLast? answers answers.length)

/-- `Response.find(\x7b formId, deleted: false \x7d)`: the response
query shared by the three dashboard endpoints — no `isDraft` filter. -/
def formResponses (s : Store) (fid : String) : List Response :=
  s.responses.filter (fun r => r.formId == fid && !r.deleted)

/-- The response list of the full-analysis view after its user
populate: responses whose user populated live. -/
def formResponsesWithUser (s : Store) (fid : String) : List Response :=
  (formResponses s fid).filter (fun r => (findUserLive s r.userId).isSome)

/-- Result of `GET /api/dashboards/analysis/:formId/:questionId`. -/
inductive QAnalysisOut where
  | userNotFound
  | accessDenied
  | formNotFound
  | questionNotFound
  | serverError
  | ok (question : String) (questionType : QType) (analysis : Analysis)
deriving DecidableEq, Repr

/-- `GET /api/dashboards/analysis/:formId/:questionId`. The response
query is `Response.find(\x7b formId, deleted: false \x7d)` — the
source does NOT filter `isDraft`, so non-deleted drafts are included
in the aggregation. -/
def analyzeQuestion (s : Store) (callerId formId questionId : String) : QAnalysisOut :=
  match findUserLive s callerId with
  | none => .userNotFound
  | some user =>
    if user.role != Role.admin && user.role != Role.teacher_analyst then .accessDenied
    else
      match findFormLive s formId with
      | none => .formNotFound
      | some _form =>
        match findQuestionLive s questionId with
        | none => .questionNotFound
        | some question =>
          match analyzeByType question.type
              (questionAnswers (formResponses s formId) questionId) with
          | none => .serverError
          | some analysis => .ok question.title question.type analysis

/-- Per-question statistics of the full-analysis view. `scaleEmpty` is
the guarded zero-answer scale branch of this endpoint (`average = 0`,
a JavaScript number, and an empty distribution); `dateRangeNull` is
its `range: null` case. -/
inductive FullStats where
  | choice (distribution : List (String × Nat))
  | checkbox (distribution : List (String × Nat))
  | scaleStats (average : String) (minV maxV : JsNum) (distribution : List (JsNum × Nat))
  | scaleEmpty
  | textSample (sampleAnswers : List JsVal)
  | dateRange (earliest latest : JsNum)
  | dateRangeNull
deriving DecidableEq, Repr

/-- One entry of `questionsAnalysis` in the full-analysis view. -/
structure QuestionStats where
  questionId : String
  title : String
  type : QType
  stats : FullStats
  totalAnswers : Nat
deriving DecidableEq, Repr

/-- The value-extraction pipeline of the full-analysis (and its
per-question loop): per response, `find` the answer matching the
question, yield its value or `null`, then filter out `null` (note:
`undefined` is NOT filtered here — the guard is `a !== null`). -/
def questionValuesFull (responses : List Response) (questionId : String) : List JsVal :=
  (responses.filterMap (fun r =>
    (r.answers.find? (fun a => a.questionId != "" && a.questionId == questionId)).map
      (fun a => a.answer))).filter (fun a => a != JsVal.jsNull)

/-- The switch of the full-analysis per-question loop; unlike the
single-question view, the scale branch DOES guard the zero-answer
case, the text branch caps at 5 samples, and the date branch reports
a null range when empty. -/
def fullStatsByType (qt : QType) (values : List JsVal) : Option FullStats :=
  match qt with
  | .multiple_choice => some (.choice (tally (values.map jsToString)))
  | .dropdown => some (.choice (tally (values.map jsToString)))
  | .checkbox =>
      match values.mapM checkboxOptions with
      | none => none
      | some lists => some (.checkbox (tally lists.flatten))
  | .scale =>
      let scaleValues := values.map (fun a => parseIntJS (jsToString a))
      if scaleValues.length > 0 then
        some (.scaleStats
          (divToFixed2 (scaleValues.foldl JsNum.add (.num 0)) scaleValues.length)
          (jsMinList scaleValues) (jsMaxList scaleValues) (tally scaleValues))
      else some .scaleEmpty
  | .text => some (.textSample (values.take 5))
  | .date =>
      let sorted := (values.map parseDateJS).mergeSort JsNum.leB
      match sorted.head?, sorted.getLast? with
      | some e, some l => some (.dateRange e l)
      | _, _ => some .dateRangeNull

/-- Result of `GET /api/dashboards/full-analysis/:formId`. -/
inductive FullAnalysisOut where
  | userNotFound
  | accessDenied
  | formNotFound
  | serverError
  | ok (formTitle : String) (totalResponses : Nat) (questionsAnalysis : List QuestionStats)
deriving DecidableEq, Repr

/-- `GET /api/dashboards/full-analysis/:formId`. The response query is
`Response.find(\x7b formId, deleted: false \x7d)` — again with NO
`isDraft` filter; responses whose user populated to null (deleted or
missing user) are dropped, the form's question list is filtered to
the questions that populated live, and `totalResponses` counts the
user-filtered responses. -/
def fullAnalysis (s : Store) (callerId formId : String) : FullAnalysisOut :=
  match findUserLive s callerId with
  | none => .userNotFound
  | some user =>
    if user.role != Role.admin && user.role != Role.teacher_analyst then .accessDenied
    else
      match findFormLive s formId with
      | none => .formNotFound
      | some form =>
        match (form.questions.filterMap (fun fq =>
            (findQuestionLive s fq.questionId).map (fun q => (fq, q)))).mapM (fun p =>
            let values := questionValuesFull (formResponsesWithUser s formId) p.2._id
            (fullStatsByType p.2.type values).map (fun st =>
              ({ questionId := p.2._id, title := p.2.title, type := p.2.type,
                 stats := st, totalAnswers := values.length } : QuestionStats))) with
        | none => .serverError
        | some questionsAnalysis =>
            .ok form.title (formResponsesWithUser s formId).length questionsAnalysis

/-- One row of the export view. Column values keep their JavaScript
shape: array answers are flattened to a comma-space-joined string,
other values are stored as-is; assigning an existing column key
replaces its value in place, as JavaScript object assignment does. -/
structure ExportRow where
  respondent : String
  email : String
  submittedAt : Nat
  columns : List (String × JsVal)
deriving DecidableEq, Repr

/-- `data[k] = v` on an object represented as an association list in
key-insertion order. -/
def objSet (k : String) (v : JsVal) : List (String × JsVal) → List (String × JsVal)
  | [] => [(k, v)]
  | (k', v') :: rest => if k' == k then (k', v) :: rest else (k', v') :: objSet k v rest

/-- Result of `GET /api/dashboards/export/:formId`. -/
inductive ExportOut where
  | userNotFound
  | accessDenied
  | formNotFound
  | ok (formTitle : String) (totalResponses : Nat) (data : List ExportRow)
deriving DecidableEq, Repr

/-- `GET /api/dashboards/export/:formId`. The response query is
`Response.find(\x7b formId, deleted: false \x7d)` — no `isDraft`
filter; rows are built only for responses whose user populated live,
while `totalResponses` here counts ALL non-deleted responses of the
form. -/
def exportForm (s : Store) (callerId formId : String) : ExportOut :=
  match findUserLive s callerId with
  | none => .userNotFound
  | some user =>
    if user.role != Role.admin && user.role != Role.teacher_analyst then .accessDenied
    else
      match findFormLive s formId with
      | none => .formNotFound
      | some form =>
        let validQuestions := form.questions.filterMap (fun fq =>
          (findQuestionLive s fq.questionId).map (fun q => (fq, q)))
        .ok form.title (formResponses s formId).length
          ((formResponses s formId).filterMap (fun r =>
            (findUserLive s r.userId).map (fun u =>
              ({ respondent := u.name, email := u.email, submittedAt := r.submittedAt,
                 columns := r.answers.foldl (fun acc a =>
                   match validQuestions.find? (fun p => p.2._id == a.questionId) with
                   | some p =>
                       objSet p.2.title
                         (match a.answer with
                          | .arr l => .str (String.intercalate ", " l)
                          | v => v) acc
                   | none => acc) [] } : ExportRow))))

/-! ## Legacy form routes (`src/routes/formRoutes.js`) -/

/-- One `questions` entry of a form create/update request body:
`order` and `required` are optional. -/
structure FormQuestionIn where
  questionId : String
  order : Option Int
  required : Option Bool
deriving DecidableEq, Repr

/-- `questions.map((q, index) => (\x7b questionId, order: q.order !==
undefined ? q.order : index, required: q.required || false \x7d))`. -/
def mkFormQuestions (qs : List FormQuestionIn) : List FormQuestion :=
  qs.enum.map (fun p =>
    { questionId := p.2.questionId, order := p.2.order.getD (p.1 : Int),
      required := p.2.required.getD false })

/-- The distinct outcomes of `POST /api/forms` (create form). -/
inductive FormCreateErr where
  | userNotFound
  | notAdmin
  | emptyTitle
  | noQuestions
  | invalidQuestionIds
  | questionsNotFound
deriving DecidableEq, Repr

/-- Result of a form create. -/
inductive FormCreateOut where
  | err (e : FormCreateErr)
  | ok (f : Form)
deriving DecidableEq, Repr

/-- `POST /api/forms` — create a form (legacy single-active design).
After validation, `Form.updateMany(\x7b\x7d, \x7b isActive: false
\x7d)` deactivates EVERY form whenever the new form is active
(`isActive` defaults to true), then the new form is saved; the form
schema defaults give it `type: form`, no assigned users and `deleted:
false`. `newId` stands for the ObjectId Mongo generates for the
inserted document. -/
def createForm (s : Store) (callerId : String) (title description : Option String)
    (questions : Option (List FormQuestionIn)) (isActive : Option Bool) (newId : String) :
    FormCreateOut × Store :=
  match findUserAny s callerId with
  | none => (.err .userNotFound, s)
  | some user =>
  if user.role != Role.admin then (.err .notAdmin, s)
  else if (jsTrim (title.getD "") == "") then (.err .emptyTitle, s)
  else
    match questions with
    | none => (.err .noQuestions, s)
    | some qs =>
      if qs.isEmpty then (.err .noQuestions, s)
      else
        let questionIds := qs.map (fun q => q.questionId)
        if ((questionIds.filter (fun id => !isValidObjectId id)).length > 0) then
          (.err .invalidQuestionIds, s)
        else if ((s.questions.filter (fun q => questionIds.contains q._id)).length
            != questionIds.length) then
          (.err .questionsNotFound, s)
        else
          let formIsActive := isActive.getD true
          let forms1 :=
            if formIsActive then s.forms.map (fun f => { f with isActive := false })
            else s.forms
          let newForm : Form :=
            { _id := newId, title := jsTrim (title.getD ""),
              description := jsTrim (description.getD ""), type := FType.form,
              questions := mkFormQuestions qs, assignedUsers := [],
              isActive := formIsActive, deleted := false }
          (.ok newForm, { s with forms := forms1 ++ [newForm] })

/-- `helpers/validate-form-fields.js` (`validateFormUpdate`): field
validation for form updates; `true` is `isValid`. The distinct error
messages are elided — the update route only branches on `isValid`.
The `typeof` checks on `order`, `required` and `isActive` are
vacuously satisfied in this typed model. The legacy update route
passes no `assignedUsers`, but the helper's branch for it is kept. -/
def validateFormUpdate (title : Option String) (questions : Option (List FormQuestionIn))
    (assignedUsers : Option (List String)) : Bool :=
  (match title with
   | none => true
   | some t =>
       !(t == "") && !((jsTrim t).length == 0) &&
       decide (3 ≤ (jsTrim t).length) && decide ((jsTrim t).length ≤ 200)) &&
  (match questions with
   | none => true
   | some qs =>
       !qs.isEmpty &&
       qs.all (fun q =>
         !(q.questionId == "") && isValidObjectId q.questionId &&
         (match q.order with | none => true | some o => decide (0 ≤ o)))) &&
  (match assignedUsers with
   | none => true
   | some l =>
       l.all (fun id => !(id == "") && isValidObjectId id) &&
       ((dedupFirst l).length == l.length))

/-- The distinct outcomes of `PUT /api/forms/:id` (update form). -/
inductive FormUpdateErr where
  | userNotFound
  | notAdmin
  | formNotFound
  | validationFailed
  | questionsNotFound
deriving DecidableEq, Repr

/-- Result of a form update. -/
inductive FormUpdateOut where
  | err (e : FormUpdateErr)
  | ok (f : Form)
deriving DecidableEq, Repr

/-- The `$set` patch of the update route applied to the target form:
only the provided fields change. -/
def applyFormUpdate (f : Form) (title description : Option String)
    (questions : Option (List FormQuestionIn)) (isActive : Option Bool) : Form :=
  { f with
    title := (title.map (fun t => jsTrim t)).getD f.title,
    description := (description.map (fun d => jsTrim d)).getD f.description,
    questions := (questions.map mkFormQuestions).getD f.questions,
    isActive := isActive.getD f.isActive }

/-- `PUT /api/forms/:id` — update a form (legacy single-active
design). The user and form lookups have no deleted filter. When the
form ends up active (`isActive` provided true, or absent with the
form already active), `Form.updateMany(\x7b _id: \x7b $ne: formId
\x7d \x7d, \x7b isActive: false \x7d)` first deactivates every OTHER
form; then `findOneAndUpdate` applies the patch to the first form
matching the id. -/
def updateForm (s : Store) (callerId formIdP : String) (title description : Option String)
    (questions : Option (List FormQuestionIn)) (isActive : Option Bool) :
    FormUpdateOut × Store :=
  match findUserAny s callerId with
  | none => (.err .userNotFound, s)
  | some user =>
  if user.role != Role.admin then (.err .notAdmin, s)
  else
    match findFormAny s formIdP with
    | none => (.err .formNotFound, s)
    | some form =>
      if !(validateFormUpdate title questions none) then (.err .validationFailed, s)
      else
        let questionsExist :=
          match questions with
          | none => true
          | some qs =>
              let questionIds := qs.map (fun q => q.questionId)
              (s.questions.filter (fun q => questionIds.contains q._id)).length
                == questionIds.length
        if !questionsExist then (.err .questionsNotFound, s)
        else
          let formIsActive := isActive.getD form.isActive
          let forms1 :=
            if formIsActive then
              s.forms.map (fun f => if f._id == formIdP then f else { f with isActive := false })
            else s.forms
          let forms2 :=
            updateFirst (fun f => f._id == formIdP)
              (fun f => applyFormUpdate f title description questions isActive) forms1
          (.ok (applyFormUpdate form title description questions isActive),
            { s with forms := forms2 })

/-- A form-lifecycle operation: the arguments of one create or update
request. -/
inductive FormOp where
  | create (callerId : String) (title description : Option String)
      (questions : Option (List FormQuestionIn)) (isActive : Option Bool) (newId : String)
  | update (callerId formIdP : String) (title description : Option String)
      (questions : Option (List FormQuestionIn)) (isActive : Option Bool)
deriving DecidableEq, Repr

/-- Apply one form operation to the store. -/
def applyFormOp (s : Store) : FormOp → Store
  | .create callerId title description questions isActive newId =>
      (createForm s callerId title description questions isActive newId).2
  | .update callerId formIdP title description questions isActive =>
      (updateForm s callerId formIdP title description questions isActive).2

/-- Apply a sequence of form operations, left to right. -/
def applyFormOps (s : Store) (ops : List FormOp) : Store :=
  ops.foldl applyFormOp s

/-- The ObjectId Mongo generates for a created form never collides
with an id already present; `opFresh` states this side condition for
one operation. -/
def opFresh (s : Store) : FormOp → Bool
  | .create _ _ _ _ _ newId => !(s.forms.any (fun f => f._id == newId))
  | .update _ _ _ _ _ _ => true

/-- Freshness of every generated id along a run of operations. -/
def opsFresh (s : Store) : List FormOp → Bool
  | [] => true
  | op :: rest => opFresh s op && opsFresh (applyFormOp s op) rest

/-- At most one form of the store is active (decidable, so concrete
stores evaluate by `decide`). -/
def atMostOneActive (s : Store) : Prop :=
  (s.forms.filter (fun f => f.isActive)).length ≤ 1

/-- Mongo's `_id` uniqueness for the forms collection (decidable). -/
def formIdsNodup (s : Store) : Prop :=
  (s.forms.map (fun f => f._id)).Nodup

/-! ## Concrete stores used by witnesses and counterexamples -/

/-- A non-deleted admin user, caller of the dashboard endpoints. -/
def adminUser : User :=
  { _id := "aaaaaaaaaaaaaaaaaaaaaaaa", name := "Ana", email := "ana@m2tie.app",
    role := Role.admin, deleted := false }

/-- A non-deleted student user, the respondent of the scenarios. -/
def studentUser : User :=
  { _id := "bbbbbbbbbbbbbbbbbbbbbbb1", name := "Bia", email := "bia@m2tie.app",
    role := Role.student, deleted := false }

/-- A non-deleted scale question. -/
def scaleQ : Question :=
  { _id := "dddddddddddddddddddddddd", title := "Nota", type := QType.scale,
    options := [], deleted := false }

/-- An active, non-deleted, non-diary form holding only the scale
question, not required. -/
def scaleForm : Form :=
  { _id := "cccccccccccccccccccccccc", title := "Pesquisa", description := "",
    type := FType.form,
    questions := [{ questionId := "dddddddddddddddddddddddd", order := 0, required := false }],
    assignedUsers := [], isActive := true, deleted := false }

/-- A final (non-draft, non-deleted) response to `scaleForm` answering
the scale question with the given string. -/
def scaleResp (uid v : String) : Response :=
  { formId := "cccccccccccccccccccccccc", userId := uid,
    answers := [{ questionId := "dddddddddddddddddddddddd", answer := JsVal.str v }],
    isDraft := false, submittedAt := 1700000000000, lastModified := none, deleted := false }

/-- The store of the scale-aggregation example: four final responses
answering 3, 5, 5 and 10. -/
def scaleStore : Store :=
  { users := [adminUser],
    questions := [scaleQ],
    forms := [scaleForm],
    responses := [scaleResp "bbbbbbbbbbbbbbbbbbbbbbb1" "3",
                  scaleResp "bbbbbbbbbbbbbbbbbbbbbbb2" "5",
                  scaleResp "bbbbbbbbbbbbbbbbbbbbbbb3" "5",
                  scaleResp "bbbbbbbbbbbbbbbbbbbbbbb4" "10"] }

/-- C7: given the answers ["3","5","5","10"] collected for a scale
question, analyzeQuestion returns average "5.75", min 3, max 10,
distribution 3 to 1, 5 to 2, 10 to 1, and totalAnswers 4. -/
theorem c7_scale_aggregation_example :
    analyzeQuestion scaleStore "aaaaaaaaaaaaaaaaaaaaaaaa" "cccccccccccccccccccccccc"
      "dddddddddddddddddddddddd" =
    QAnalysisOut.ok "Nota" QType.scale
      (Analysis.scale "5.75" (JsNum.num 3) (JsNum.num 10)
        [(JsNum.num 3, 1), (JsNum.num 5, 2), (JsNum.num 10, 1)] 4) := by
  decide

/-- The scale-question store with no responses at all. -/
def emptyScaleStore : Store :=
  { users := [adminUser], questions := [scaleQ], forms := [scaleForm], responses := [] }

/-- A non-deleted DRAFT response of the student answering the scale
question with "7". -/
def draftResp : Response :=
  { formId := "cccccccccccccccccccccccc", userId := "bbbbbbbbbbbbbbbbbbbbbbb1",
    answers := [{ questionId := "dddddddddddddddddddddddd", answer := JsVal.str "7" }],
    isDraft := true, submittedAt := 1700000000000, lastModified := some 1700000000000,
    deleted := false }

/-- A store whose only response for the scale form is the student's
non-deleted draft. -/
def draftStore : Store :=
  { users := [adminUser, studentUser], questions := [scaleQ], forms := [scaleForm],
    responses := [draftResp] }

/-- An active, non-deleted DIARY form holding the scale question, not
required. -/
def diaryForm : Form :=
  { _id := "eeeeeeeeeeeeeeeeeeeeeeee", title := "Diario", description := "",
    type := FType.diary,
    questions := [{ questionId := "dddddddddddddddddddddddd", order := 0, required := false }],
    assignedUsers := [], isActive := true, deleted := false }

/-- The student's final response to the diary form, submitted at the
last millisecond of calendar day 1 (`2 * msPerDay - 1`). -/
def diaryRespDay1 : Response :=
  { formId := "eeeeeeeeeeeeeeeeeeeeeeee", userId := "bbbbbbbbbbbbbbbbbbbbbbb1",
    answers := [{ questionId := "dddddddddddddddddddddddd", answer := JsVal.str "5" }],
    isDraft := false, submittedAt := 2 * msPerDay - 1, lastModified := none,
    deleted := false }

/-- Diary scenario: the student already has a final response on day 1
and now submits at the first millisecond of day 2 (`2 * msPerDay`). -/
def diaryStore : Store :=
  { users := [studentUser], questions := [scaleQ], forms := [diaryForm],
    responses := [diaryRespDay1] }

/-- A SOFT-DELETED (deleted = true) form that is still `isActive`,
holding the scale question, not required. -/
def deletedForm : Form :=
  { _id := "ffffffffffffffffffffffff", title := "Apagado", description := "",
    type := FType.form,
    questions := [{ questionId := "dddddddddddddddddddddddd", order := 0, required := false }],
    assignedUsers := [], isActive := true, deleted := false }

/-- Store for the deleted-form scenario. -/
def deletedFormStore : Store :=
  { users := [studentUser], questions := [scaleQ],
    forms := [{ deletedForm with deleted := true }], responses := [] }

/-- An active, non-deleted form whose assignment list names only the
admin — NOT the student. -/
def assignedForm : Form :=
  { _id := "abababababababababababab", title := "Restrito", description := "",
    type := FType.form,
    questions := [{ questionId := "dddddddddddddddddddddddd", order := 0, required := false }],
    assignedUsers := ["aaaaaaaaaaaaaaaaaaaaaaaa"], isActive := true, deleted := false }

/-- Store for the assignment scenario. -/
def assignedStore : Store :=
  { users := [adminUser, studentUser], questions := [scaleQ], forms := [assignedForm],
    responses := [] }

/-- C4 counterexample: for a live scale question with zero collected
answers, the single-question analysis endpoint reports average "NaN",
min Infinity, max -Infinity — not average 0, and it does produce
NaN/undefined statistics (the claimed guard exists only in the
full-analysis view). -/
theorem c4_counterexample :
    analyzeQuestion emptyScaleStore "aaaaaaaaaaaaaaaaaaaaaaaa" "cccccccccccccccccccccccc"
      "dddddddddddddddddddddddd" =
    QAnalysisOut.ok "Nota" QType.scale
      (Analysis.scale "NaN" JsNum.inf JsNum.negInf [] 0) := by
  decide

/-- C2 counterexample: a single non-deleted DRAFT response is counted
by all three aggregation endpoints — analyzeQuestion reports
totalAnswers 1 with the draft's value aggregated, analyzeForm reports
totalResponses 1, and the export contains the draft as a row — while
the claim says drafts contribute nothing. -/
theorem c2_counterexample :
    analyzeQuestion draftStore "aaaaaaaaaaaaaaaaaaaaaaaa" "cccccccccccccccccccccccc"
        "dddddddddddddddddddddddd" =
      QAnalysisOut.ok "Nota" QType.scale
        (Analysis.scale "7.00" (JsNum.num 7) (JsNum.num 7) [(JsNum.num 7, 1)] 1)
  ∧ fullAnalysis draftStore "aaaaaaaaaaaaaaaaaaaaaaaa" "cccccccccccccccccccccccc" =
      FullAnalysisOut.ok "Pesquisa" 1
        [{ questionId := "dddddddddddddddddddddddd", title := "Nota", type := QType.scale,
           stats := FullStats.scaleStats "7.00" (JsNum.num 7) (JsNum.num 7)
             [(JsNum.num 7, 1)],
           totalAnswers := 1 }]
  ∧ exportForm draftStore "aaaaaaaaaaaaaaaaaaaaaaaa" "cccccccccccccccccccccccc" =
      ExportOut.ok "Pesquisa" 1
        [{ respondent := "Bia", email := "bia@m2tie.app", submittedAt := 1700000000000,
           columns := [("Nota", JsVal.str "7")] }] := by
  refine ⟨by decide, by decide, by decide⟩

/-- C3, at the failing input: a diary form whose user holds a final
response at the last millisecond of day 1; a submission at the first
millisecond of day 2 passes the diary window check but is rejected by
the global "already answered" check (which the source runs for diary
forms too), with the store unchanged — even though the can-respond
helper of the same router reports that the user may respond today. -/
theorem c3_diary_next_day_rejected :
    submit diaryStore "bbbbbbbbbbbbbbbbbbbbbbb1" "eeeeeeeeeeeeeeeeeeeeeeee"
        (AnswersIn.arr [{ questionId := "dddddddddddddddddddddddd", answer := JsVal.str "8" }])
        (2 * msPerDay) =
      (SubmitOut.err SubmitErr.alreadyAnswered, diaryStore)
  ∧ canRespondToday diaryStore "bbbbbbbbbbbbbbbbbbbbbbb1" "eeeeeeeeeeeeeeeeeeeeeeee"
        (2 * msPerDay) = CanRespondOut.ok true := by
  refine ⟨by decide, by decide⟩

/-- The final response persisted in the deleted-form scenario. -/
def deletedFormResp : Response :=
  { formId := "ffffffffffffffffffffffff", userId := "bbbbbbbbbbbbbbbbbbbbbbb1",
    answers := [], isDraft := false, submittedAt := 1700000000000, lastModified := none,
    deleted := false }

/-- C5, at the failing input: the target form is soft-deleted
(deleted = true) yet still isActive; submit does NOT return NotFound —
its form lookup omits the `deleted: false` filter — and it persists a
new final response. -/
theorem c5_deleted_form_submit_succeeds :
    (findFormAny deletedFormStore "ffffffffffffffffffffffff").map Form.deleted = some true
  ∧ submit deletedFormStore "bbbbbbbbbbbbbbbbbbbbbbb1" "ffffffffffffffffffffffff"
        (AnswersIn.arr []) 1700000000000 =
      (SubmitOut.ok deletedFormResp,
        { deletedFormStore with responses := [deletedFormResp] }) := by
  refine ⟨by decide, by decide⟩

/-- The final response persisted in the assignment scenario. -/
def assignedStoreResp : Response :=
  { formId := "abababababababababababab", userId := "bbbbbbbbbbbbbbbbbbbbbbb1",
    answers := [], isDraft := false, submittedAt := 1700000000000, lastModified := none,
    deleted := false }

/-- C6 counterexample: the student does not appear in the form's
assignedUsers, yet their submit succeeds and creates a response —
the submit handler never consults the assignment list. -/
theorem c6_counterexample :
    assignedForm.assignedUsers.contains "bbbbbbbbbbbbbbbbbbbbbbb1" = false
  ∧ submit assignedStore "bbbbbbbbbbbbbbbbbbbbbbb1" "abababababababababababab"
        (AnswersIn.arr []) 1700000000000 =
      (SubmitOut.ok assignedStoreResp,
        { assignedStore with responses := [assignedStoreResp] }) := by
  refine ⟨by decide, by decide⟩

/-! ## C2: the aggregation endpoints never read `isDraft` -/

/-- Rewrite every response's `isDraft` flag by an arbitrary function
of the response, leaving every other field and collection intact. -/
def setDrafts (g : Response → Bool) (s : Store) : Store :=
  { s with responses := s.responses.map (fun r => { r with isDraft := g r }) }

/-- The dashboard response query ignores `isDraft`: on the rewritten
store it returns the rewritten originals. -/
theorem formResponses_setDrafts (g : Response → Bool) (s : Store) (fid : String) :
    formResponses (setDrafts g s) fid =
    (formResponses s fid).map (fun r => { r with isDraft := g r }) := by
  unfold formResponses setDrafts
  rw [List.filter_map]
  rfl

/-- The single-question answer extraction ignores `isDraft`. -/
theorem questionAnswers_setDrafts (g : Response → Bool) (s : Store) (fid qid : String) :
    questionAnswers (formResponses (setDrafts g s) fid) qid =
    questionAnswers (formResponses s fid) qid := by
  rw [formResponses_setDrafts]
  unfold questionAnswers
  rw [List.filterMap_map]
  rfl

theorem analyzeQuestion_setDrafts (g : Response → Bool) (s : Store)
    (c fid qid : String) :
    analyzeQuestion (setDrafts g s) c fid qid = analyzeQuestion s c fid qid := by
  unfold analyzeQuestion
  rw [show findUserLive (setDrafts g s) c = findUserLive s c from rfl,
      show findFormLive (setDrafts g s) fid = findFormLive s fid from rfl,
      show findQuestionLive (setDrafts g s) qid = findQuestionLive s qid from rfl,
      questionAnswers_setDrafts]

/-- The user-populated response list of the full-analysis view
ignores `isDraft`. -/
theorem formResponsesWithUser_setDrafts (g : Response → Bool) (s : Store) (fid : String) :
    formResponsesWithUser (setDrafts g s) fid =
    (formResponsesWithUser s fid).map (fun r => { r with isDraft := g r }) := by
  unfold formResponsesWithUser
  rw [formResponses_setDrafts, List.filter_map]
  rfl

/-- The full-analysis value extraction ignores `isDraft`. -/
theorem questionValuesFull_map_setDrafts (g : Response → Bool) (l : List Response)
    (qid : String) :
    questionValuesFull (l.map (fun r => { r with isDraft := g r })) qid =
    questionValuesFull l qid := by
  unfold questionValuesFull
  rw [List.filterMap_map]
  rfl

theorem fullAnalysis_setDrafts (g : Response → Bool) (s : Store) (c fid : String) :
    fullAnalysis (setDrafts g s) c fid = fullAnalysis s c fid := by
  unfold fullAnalysis
  rw [show findUserLive (setDrafts g s) c = findUserLive s c from rfl,
      show findFormLive (setDrafts g s) fid = findFormLive s fid from rfl]
  simp only [show ∀ qid, findQuestionLive (setDrafts g s) qid = findQuestionLive s qid
      from fun _ => rfl,
    formResponsesWithUser_setDrafts g s fid, questionValuesFull_map_setDrafts,
    List.length_map]

theorem exportForm_setDrafts (g : Response → Bool) (s : Store) (c fid : String) :
    exportForm (setDrafts g s) c fid = exportForm s c fid := by
  unfold exportForm
  rw [show findUserLive (setDrafts g s) c = findUserLive s c from rfl,
      show findFormLive (setDrafts g s) fid = findFormLive s fid from rfl]
  simp only [show ∀ qid, findQuestionLive (setDrafts g s) qid = findQuestionLive s qid
      from fun _ => rfl,
    show ∀ uid, findUserLive (setDrafts g s) uid = findUserLive s uid
      from fun _ => rfl,
    formResponses_setDrafts g s fid, List.length_map, List.filterMap_map]
  rfl

/-- C2 amended: the aggregation endpoints are completely insensitive
to the `isDraft` flag — they aggregate every non-deleted response of
the form, so a non-deleted draft contributes to the per-question
statistics, the totalResponses count and the export rows exactly as a
final response does. -/
theorem c2_amended_aggregation_ignores_isDraft (g : Response → Bool) (s : Store)
    (c fid qid : String) :
    analyzeQuestion (setDrafts g s) c fid qid = analyzeQuestion s c fid qid
  ∧ fullAnalysis (setDrafts g s) c fid = fullAnalysis s c fid
  ∧ exportForm (setDrafts g s) c fid = exportForm s c fid :=
  ⟨analyzeQuestion_setDrafts g s c fid qid, fullAnalysis_setDrafts g s c fid,
   exportForm_setDrafts g s c fid⟩

/-! ## C4: zero-answer scale questions in the two analysis views -/

/-- Inversion for `List.mapM` over `Option`: every element of a
successful result comes from some element of the input. -/
theorem mapM_option_mem {α β : Type} (f : α → Option β) :
    ∀ (l : List α) (ys : List β), l.mapM f = some ys → ∀ y ∈ ys, ∃ x ∈ l, f x = some y := by
  intro l
  induction l with
  | nil =>
      intro ys h y hy
      simp only [List.mapM_nil, Option.pure_def, Option.some.injEq] at h
      subst h
      simp at hy
  | cons a t ih =>
      intro ys h y hy
      rw [List.mapM_cons] at h
      cases hfa : f a with
      | none => rw [hfa] at h; simp at h
      | some b =>
          rw [hfa] at h
          cases hml : t.mapM f with
          | none => rw [hml] at h; simp at h
          | some bs =>
              rw [hml] at h
              simp only [Option.pure_def, Option.bind_eq_bind, Option.some_bind,
                Option.some.injEq] at h
              subst h
              rcases List.mem_cons.mp hy with h1 | h2
              · exact ⟨a, List.mem_cons_self a t, by rw [hfa, h1]⟩
              · obtain ⟨x, hx, hfx⟩ := ih bs hml y h2
                exact ⟨x, List.mem_cons_of_mem a hx, hfx⟩

/-- C4 amended: with zero collected numeric answers for a scale
question, the full-analysis view reports the guarded empty branch
(average 0 and an empty distribution), but the single-question
analysis view has no such guard: it reports average "NaN" (0 / 0),
min Infinity and max -Infinity, with an empty distribution. -/
theorem c4_amended_zero_answer_scale :
    (∀ (s : Store) (c fid qid title : String) (avg : String) (mn mx : JsNum)
        (dist : List (JsNum × Nat)),
      analyzeQuestion s c fid qid =
          QAnalysisOut.ok title QType.scale (Analysis.scale avg mn mx dist 0) →
      avg = "NaN" ∧ mn = JsNum.inf ∧ mx = JsNum.negInf ∧ dist = [])
  ∧ (∀ (s : Store) (c fid t : String) (n : Nat) (qas : List QuestionStats)
        (qa : QuestionStats),
      fullAnalysis s c fid = FullAnalysisOut.ok t n qas → qa ∈ qas →
      qa.type = QType.scale → qa.totalAnswers = 0 →
      qa.stats = FullStats.scaleEmpty) := by
  constructor
  · intro s c fid qid title avg mn mx dist h
    unfold analyzeQuestion at h
    repeat' split at h
    any_goals exact QAnalysisOut.noConfusion h
    rename_i question hq an hmatch
    injection h with h1 h2 h3
    rw [h2] at hmatch
    rw [h3] at hmatch
    simp only [analyzeByType, Option.some.injEq, Analysis.scale.injEq] at hmatch
    obtain ⟨havg, hmn, hmx, hdist, hlen⟩ := hmatch
    have hnil : questionAnswers (formResponses s fid) qid = [] :=
      List.length_eq_zero.mp hlen
    rw [hnil] at havg hmn hmx hdist
    simp only [List.map_nil, List.foldl_nil, List.length_nil] at havg hmn hmx hdist
    refine ⟨havg.symm.trans (by decide), hmn.symm.trans (by decide),
      hmx.symm.trans (by decide), hdist.symm.trans (by decide)⟩
  · intro s c fid t n qas qa h hmem htype htotal
    unfold fullAnalysis at h
    repeat' split at h
    any_goals exact FullAnalysisOut.noConfusion h
    rename_i qas' hmapM
    injection h with h1 h2 h3
    rw [h3] at hmapM
    obtain ⟨p, hp, hfp⟩ := mapM_option_mem _ _ _ hmapM qa hmem
    simp only [Option.map_eq_some'] at hfp
    obtain ⟨st, hst, hqa⟩ := hfp
    subst hqa
    simp only at htype htotal ⊢
    rw [htype] at hst
    have hnil : questionValuesFull (formResponsesWithUser s fid) p.2._id = [] :=
      List.length_eq_zero.mp htotal
    rw [hnil] at hst
    simp only [fullStatsByType, List.map_nil, List.length_nil, Nat.lt_irrefl,
      if_false, Option.some.injEq] at hst
    exact hst.symm

/-- Witness for C4: the amended theorem applied at the concrete
zero-response scale store, both hypotheses discharged by evaluation. -/
theorem c4_amended_witness :
    ("NaN" = "NaN" ∧ JsNum.inf = JsNum.inf ∧ JsNum.negInf = JsNum.negInf ∧
      ([] : List (JsNum × Nat)) = [])
  ∧ ({ questionId := "dddddddddddddddddddddddd", title := "Nota", type := QType.scale,
       stats := FullStats.scaleEmpty, totalAnswers := 0 } : QuestionStats).stats =
      FullStats.scaleEmpty :=
  ⟨c4_amended_zero_answer_scale.1 emptyScaleStore "aaaaaaaaaaaaaaaaaaaaaaaa"
      "cccccccccccccccccccccccc" "dddddddddddddddddddddddd" "Nota" "NaN" JsNum.inf
      JsNum.negInf [] (by decide),
   c4_amended_zero_answer_scale.2 emptyScaleStore "aaaaaaaaaaaaaaaaaaaaaaaa"
      "cccccccccccccccccccccccc" "Pesquisa" 0
      [{ questionId := "dddddddddddddddddddddddd", title := "Nota", type := QType.scale,
         stats := FullStats.scaleEmpty, totalAnswers := 0 }]
      { questionId := "dddddddddddddddddddddddd", title := "Nota", type := QType.scale,
        stats := FullStats.scaleEmpty, totalAnswers := 0 }
      (by decide) (by decide) (by decide) (by decide)⟩

/-! ## C1: the one-shot uniqueness invariant of submit -/

/-- Number of non-deleted, non-draft responses stored for the pair. -/
def finalCount (s : Store) (fid uid : String) : Nat :=
  (s.responses.filter (isLiveFinalFor fid uid)).length

/-- Full inversion of a passing submit validation sequence. -/
theorem submitCheck_none_inv {s : Store} {uid fid : String} {ans : AnswersIn} {now : Nat}
    (h : submitCheck s uid fid ans now = none) :
    (findUserLive s uid).isSome = true ∧
    (fid == "" || !isValidObjectId fid) = false ∧
    ∃ form l,
      findFormAny s fid = some form ∧
      form.isActive = true ∧
      (form.type == FType.diary && diaryConflict s fid uid now) = false ∧
      ans = AnswersIn.arr l ∧
      perAnswerCheck s form l = none ∧
      requiredCheck s (l.map (fun a => a.questionId))
        (form.questions.filter (fun q => q.required)) = none ∧
      hasLiveFinal s fid uid = false := by
  unfold submitCheck at h
  repeat' split at h
  all_goals simp_all

/-- Inversion of a successful submit: the checks passed, the returned
response is the freshly constructed final response, and the new store
soft-deletes the pair's drafts and appends it. -/
theorem submit_ok_inv {s : Store} {uid fid : String} {ans : AnswersIn} {now : Nat}
    {r : Response} {s' : Store} (h : submit s uid fid ans now = (SubmitOut.ok r, s')) :
    submitCheck s uid fid ans now = none ∧
    r = { formId := fid, userId := uid,
          answers := (match ans with | .arr l => l | _ => []).map
            (fun (a : Answer) => { questionId := a.questionId, answer := a.answer }),
          isDraft := false, submittedAt := now, lastModified := none, deleted := false } ∧
    s' = { s with responses := softDeleteDrafts fid uid s.responses ++ [r] } := by
  unfold submit at h
  cases hc : submitCheck s uid fid ans now with
  | some e => rw [hc] at h; exact absurd h (by simp)
  | none =>
      rw [hc] at h
      simp only [Prod.mk.injEq, SubmitOut.ok.injEq] at h
      obtain ⟨h1, h2⟩ := h
      exact ⟨rfl, h1.symm, by rw [← h2, h1]⟩

/-- Submit never resurrects or creates a final response for a pair
that already has one: the draft soft-delete leaves the live finals of
every pair untouched. -/
theorem filter_final_softDeleteDrafts (fid uid f u : String) (l : List Response) :
    (softDeleteDrafts fid uid l).filter (isLiveFinalFor f u) =
    l.filter (isLiveFinalFor f u) := by
  induction l with
  | nil => rfl
  | cons r t ih =>
      unfold softDeleteDrafts at ih ⊢
      simp only [List.map_cons, List.filter_cons]
      by_cases hd : isLiveDraftFor fid uid r = true
      · rw [if_pos hd]
        have hdraft : r.isDraft = true := by
          unfold isLiveDraftFor at hd
          simp only [Bool.and_eq_true] at hd
          exact hd.2
        have h1 : isLiveFinalFor f u { r with deleted := true } = false := by
          unfold isLiveFinalFor
          simp
        have h2 : isLiveFinalFor f u r = false := by
          unfold isLiveFinalFor
          simp [hdraft]
        simp [h1, h2, ih]
      · rw [if_neg hd]
        simp only [List.filter_cons, ih]

/-- A pair with no stored live final has final count zero. -/
theorem finalCount_zero_of_no_final {s : Store} {fid uid : String}
    (h : hasLiveFinal s fid uid = false) : finalCount s fid uid = 0 := by
  unfold hasLiveFinal at h
  unfold finalCount
  have hall := List.any_eq_false.mp h
  rw [List.filter_eq_nil_iff.mpr (fun a ha => by
    intro hpa
    exact hall a ha hpa)]
  rfl

/-- The store after a submit: unchanged on a validation failure, or
the draft-soft-delete plus the appended final response on success (in
which case the pair had no live final). -/
theorem submit_snd (s : Store) (uid fid : String) (ans : AnswersIn) (now : Nat) :
    (submit s uid fid ans now).2 = s ∨
    ((submit s uid fid ans now).2 =
        { s with responses := softDeleteDrafts fid uid s.responses ++
            [{ formId := fid, userId := uid,
               answers := (match ans with | .arr l => l | _ => []).map
                 (fun (a : Answer) => { questionId := a.questionId, answer := a.answer }),
               isDraft := false, submittedAt := now, lastModified := none,
               deleted := false }] } ∧
      hasLiveFinal s fid uid = false) := by
  unfold submit
  cases hc : submitCheck s uid fid ans now with
  | some e => left; rfl
  | none =>
      right
      constructor
      · rfl
      · obtain ⟨-, -, form, l, -, -, -, -, -, -, hnf⟩ := submitCheck_none_inv hc
        exact hnf

/-- One submit call preserves the at-most-one-final invariant of
every pair. -/
theorem finalCount_submit_le (s : Store) (uid fid f u : String) (ans : AnswersIn)
    (now : Nat) (hinv : finalCount s f u ≤ 1) :
    finalCount (submit s uid fid ans now).2 f u ≤ 1 := by
  rcases submit_snd s uid fid ans now with h | ⟨h, hnf⟩
  · rw [h]; exact hinv
  · rw [h]
    unfold finalCount
    simp only [List.filter_append, List.length_append, filter_final_softDeleteDrafts]
    by_cases hm : (fid == f && uid == u) = true
    · simp only [Bool.and_eq_true, beq_iff_eq] at hm
      obtain ⟨hf, hu⟩ := hm
      subst hf; subst hu
      have h0 : finalCount s fid uid = 0 := finalCount_zero_of_no_final hnf
      unfold finalCount at h0
      rw [h0]
      simp [isLiveFinalFor]
    · have hm' : (fid == f && uid == u) = false := by
        cases hb : (fid == f && uid == u) with
        | true => exact absurd hb hm
        | false => rfl
      have hr : isLiveFinalFor f u
          { formId := fid, userId := uid,
            answers := (match ans with | .arr l => l | _ => []).map
              (fun (a : Answer) => { questionId := a.questionId, answer := a.answer }),
            isDraft := false, submittedAt := now, lastModified := none,
            deleted := false } = false := by
        unfold isLiveFinalFor
        simp only [Bool.not_false, Bool.and_true]
        exact hm'
      simp only [List.filter_cons, hr, Bool.false_eq_true, if_false, List.filter_nil,
        List.length_nil, Nat.add_zero]
      exact hinv

/-- The populated question-id resolution only depends on the
questions collection. -/
theorem resolveFormQuestionIds_congr {s₀ s₁ : Store}
    (hq : s₀.questions = s₁.questions) (qs : List FormQuestion) :
    resolveFormQuestionIds s₀ qs = resolveFormQuestionIds s₁ qs := by
  unfold resolveFormQuestionIds
  congr 1
  funext fq
  unfold findQuestionAny
  rw [hq]

/-- The per-answer validation only depends on the questions
collection. -/
theorem perAnswerCheck_congr {s₀ s₁ : Store} (hq : s₀.questions = s₁.questions)
    (form : Form) (answers : List Answer) :
    perAnswerCheck s₀ form answers = perAnswerCheck s₁ form answers := by
  unfold perAnswerCheck
  rw [resolveFormQuestionIds_congr hq]

/-- The required-question check only depends on the questions
collection. -/
theorem requiredCheck_congr {s₀ s₁ : Store} (hq : s₀.questions = s₁.questions)
    (answered : List String) :
    ∀ qs, requiredCheck s₀ answered qs = requiredCheck s₁ answered qs := by
  intro qs
  induction qs with
  | nil => rfl
  | cons fq t ih =>
      unfold requiredCheck
      rw [show findQuestionAny s₀ fq.questionId = findQuestionAny s₁ fq.questionId from by
        unfold findQuestionAny; rw [hq]]
      cases findQuestionAny s₁ fq.questionId <;> simp [ih]

/-- After a successful submit on a non-diary form, a second submit
with the same arguments is rejected by the global one-shot check
("already answered") and leaves the store untouched. -/
theorem second_submit_conflict (s s₁ : Store) (uid fid : String) (ans : AnswersIn)
    (now now' : Nat) (r : Response) (form : Form)
    (hform : findFormAny s fid = some form) (hdiary : form.type ≠ FType.diary)
    (hok : submit s uid fid ans now = (SubmitOut.ok r, s₁)) :
    submit s₁ uid fid ans now' = (SubmitOut.err SubmitErr.alreadyAnswered, s₁) := by
  obtain ⟨hchk, hr, hs'⟩ := submit_ok_inv hok
  obtain ⟨hu, hv, form', l, hf, hact, hdc, hansEq, hpa, hrc, hnf⟩ := submitCheck_none_inv hchk
  rw [hform] at hf
  injection hf with hfe
  subst hfe
  subst hansEq
  have hbeq : (form.type == FType.diary) = false := by
    cases hft : form.type with
    | diary => exact absurd hft hdiary
    | form => rfl
  have e1 : findUserLive s₁ uid = findUserLive s uid := by
    rw [hs']; exact rfl
  have e2 : findFormAny s₁ fid = findFormAny s fid := by
    rw [hs']; exact rfl
  have e3 : s₁.questions = s.questions := by
    rw [hs']
  have e4 : hasLiveFinal s₁ fid uid = true := by
    rw [hs']
    unfold hasLiveFinal
    rw [show ({ s with responses := softDeleteDrafts fid uid s.responses ++ [r] } :
        Store).responses = softDeleteDrafts fid uid s.responses ++ [r] from rfl]
    rw [List.any_append]
    have hrl : isLiveFinalFor fid uid r = true := by
      rw [hr]
      unfold isLiveFinalFor
      simp
    simp [hrl]
  have hcheck : submitCheck s₁ uid fid (AnswersIn.arr l) now' =
      some SubmitErr.alreadyAnswered := by
    unfold submitCheck
    cases hu2 : findUserLive s uid with
    | none => rw [hu2] at hu; simp at hu
    | some u =>
        rw [e1, hu2, e2, hform]
        simp only [hv, Bool.false_eq_true, if_false, hact, Bool.not_true, hbeq,
          Bool.false_and, perAnswerCheck_congr e3, hpa,
          requiredCheck_congr e3 (l.map (fun a => a.questionId))
            (form.questions.filter (fun q => q.required)), hrc, e4, if_true]
  unfold submit
  rw [hcheck]

/-- One submit request: caller, form id, answers payload and time. -/
structure SubmitCall where
  userId : String
  formId : String
  answers : AnswersIn
  now : Nat
deriving DecidableEq, Repr

/-- Run a sequence of submit calls left to right, threading the
store. -/
def applySubmits (s : Store) (calls : List SubmitCall) : Store :=
  calls.foldl (fun st c => (submit st c.userId c.formId c.answers c.now).2) s

/-- C1: for every (formId, userId) pair, after any sequence of
submit() calls at most one non-deleted, non-draft response exists for
the pair (in particular for every pair on a non-diary form), and a
second submit() after a successful first on a non-diary form returns
the "already answered" conflict without altering the store. -/
theorem c1_submit_uniqueness :
    (∀ (s : Store) (calls : List SubmitCall),
      (∀ fid uid, finalCount s fid uid ≤ 1) →
      ∀ fid uid, finalCount (applySubmits s calls) fid uid ≤ 1)
  ∧ (∀ (s s₁ : Store) (uid fid : String) (ans : AnswersIn) (now now' : Nat)
        (r : Response) (form : Form),
      findFormAny s fid = some form → form.type ≠ FType.diary →
      submit s uid fid ans now = (SubmitOut.ok r, s₁) →
      submit s₁ uid fid ans now' = (SubmitOut.err SubmitErr.alreadyAnswered, s₁)) := by
  constructor
  · intro s calls
    induction calls generalizing s with
    | nil => intro h fid uid; exact h fid uid
    | cons chd ct ih =>
        intro h fid uid
        exact ih _ (fun f u => finalCount_submit_le _ _ _ f u _ _ (h f u)) fid uid
  · exact second_submit_conflict

/-- The store before any submission in the C1 witness run. -/
def cleanStore : Store :=
  { users := [studentUser], questions := [scaleQ], forms := [scaleForm], responses := [] }

/-- The final response created by the first witness submission. -/
def c1FirstResp : Response :=
  { formId := "cccccccccccccccccccccccc", userId := "bbbbbbbbbbbbbbbbbbbbbbb1",
    answers := [{ questionId := "dddddddddddddddddddddddd", answer := JsVal.str "5" }],
    isDraft := false, submittedAt := 1000, lastModified := none, deleted := false }

/-- The store after the first witness submission. -/
def c1Store1 : Store := { cleanStore with responses := [c1FirstResp] }

/-- Witness for C1: a concrete two-submission run of the invariant
half, and the concrete second-submission conflict, both through the
theorem with every hypothesis discharged by evaluation. -/
theorem c1_submit_uniqueness_witness :
    (∀ fid uid, finalCount (applySubmits cleanStore
        [{ userId := "bbbbbbbbbbbbbbbbbbbbbbb1", formId := "cccccccccccccccccccccccc",
           answers :=
             (AnswersIn.arr [⟨"dddddddddddddddddddddddd", JsVal.str "5"⟩]),
           now := 1000 },
         { userId := "bbbbbbbbbbbbbbbbbbbbbbb1", formId := "cccccccccccccccccccccccc",
           answers :=
             (AnswersIn.arr [⟨"dddddddddddddddddddddddd", JsVal.str "9"⟩]),
           now := 2000 }]) fid uid ≤ 1)
  ∧ submit c1Store1 "bbbbbbbbbbbbbbbbbbbbbbb1" "cccccccccccccccccccccccc"
      (AnswersIn.arr [{ questionId := "dddddddddddddddddddddddd", answer := JsVal.str "5" }])
      2000 = (SubmitOut.err SubmitErr.alreadyAnswered, c1Store1) :=
  ⟨c1_submit_uniqueness.1 cleanStore _
      (fun f u => by simp [finalCount, cleanStore]),
   c1_submit_uniqueness.2 cleanStore c1Store1 "bbbbbbbbbbbbbbbbbbbbbbb1"
      "cccccccccccccccccccccccc"
      (AnswersIn.arr [{ questionId := "dddddddddddddddddddddddd", answer := JsVal.str "5" }])
      1000 2000 c1FirstResp scaleForm (by decide) (by decide) (by decide)⟩

/-! ## C8: draft supersession -/

/-- After the draft soft-delete of submit, no live draft of the pair
remains in the rewritten prefix. -/
theorem no_live_draft_after_softDelete (fid uid : String) (l : List Response) :
    ∀ x ∈ softDeleteDrafts fid uid l, isLiveDraftFor fid uid x = false := by
  intro x hx
  unfold softDeleteDrafts at hx
  obtain ⟨r, _hr, hrx⟩ := List.mem_map.mp hx
  by_cases hd : isLiveDraftFor fid uid r = true
  · rw [if_pos hd] at hrx
    subst hrx
    unfold isLiveDraftFor
    simp
  · rw [if_neg hd] at hrx
    subst hrx
    exact Bool.not_eq_true _ |>.mp hd

/-- C8: after a successful saveDraft() followed by a successful
submit() for the same (formId, userId), no live draft remains for the
pair — getDraft() reports none — and exactly one live final response
exists for the pair. -/
theorem c8_draft_supersession (s₀ s₁ s₂ : Store) (uid fid : String)
    (ans₁ ans₂ : AnswersIn) (t₁ t₂ : Nat) (d r : Response)
    (hdraft : saveDraft s₀ uid fid ans₁ t₁ = (DraftOut.created d, s₁) ∨
              saveDraft s₀ uid fid ans₁ t₁ = (DraftOut.updated d, s₁))
    (hsubmit : submit s₁ uid fid ans₂ t₂ = (SubmitOut.ok r, s₂)) :
    getDraft s₂ uid fid = GetDraftOut.noDraft ∧ finalCount s₂ fid uid = 1 := by
  obtain ⟨hchk, hr, hs₂⟩ := submit_ok_inv hsubmit
  obtain ⟨hu, hv, form, l, hf, hact, hdc, hansEq, hpa, hrc, hnf⟩ := submitCheck_none_inv hchk
  have hrfinal : isLiveFinalFor fid uid r = true := by
    rw [hr]; unfold isLiveFinalFor; simp
  have hrdraft : isLiveDraftFor fid uid r = false := by
    rw [hr]; unfold isLiveDraftFor; simp
  have hvalid : isValidObjectId fid = true := by
    rcases Bool.or_eq_false_iff.mp hv with ⟨-, h2⟩
    simpa using h2
  constructor
  · unfold getDraft
    have e1 : findUserLive s₂ uid = findUserLive s₁ uid := by
      rw [hs₂]; exact rfl
    cases hu2 : findUserLive s₁ uid with
    | none => rw [hu2] at hu; simp at hu
    | some u =>
        rw [e1, hu2]
        simp only [hvalid, Bool.not_true, Bool.false_eq_true, if_false]
        have hnone : s₂.responses.find? (isLiveDraftFor fid uid) = none := by
          rw [hs₂]
          rw [show ({ s₁ with responses := softDeleteDrafts fid uid s₁.responses ++ [r] } :
              Store).responses = softDeleteDrafts fid uid s₁.responses ++ [r] from rfl]
          rw [List.find?_eq_none]
          intro x hx
          rcases List.mem_append.mp hx with h1 | h2
          · exact fun hpx => absurd hpx
              (by rw [no_live_draft_after_softDelete fid uid s₁.responses x h1]; simp)
          · rw [List.mem_singleton.mp h2]
            intro hpx
            rw [hrdraft] at hpx
            exact Bool.false_ne_true hpx
        rw [hnone]
  · have h0 : finalCount s₁ fid uid = 0 := finalCount_zero_of_no_final hnf
    rw [hs₂]
    unfold finalCount
    rw [show ({ s₁ with responses := softDeleteDrafts fid uid s₁.responses ++ [r] } :
        Store).responses = softDeleteDrafts fid uid s₁.responses ++ [r] from rfl]
    simp only [List.filter_append, List.length_append, filter_final_softDeleteDrafts]
    unfold finalCount at h0
    rw [h0]
    simp [hrfinal]

/-- The student's draft in the C8 witness run. -/
def c8Draft : Response :=
  { formId := "cccccccccccccccccccccccc", userId := "bbbbbbbbbbbbbbbbbbbbbbb1",
    answers := [⟨"dddddddddddddddddddddddd", JsVal.str "4"⟩],
    isDraft := true, submittedAt := 500, lastModified := some 500, deleted := false }

/-- Store after the witness saveDraft. -/
def c8Store1 : Store := { cleanStore with responses := [c8Draft] }

/-- The final response of the witness submit. -/
def c8Final : Response :=
  { formId := "cccccccccccccccccccccccc", userId := "bbbbbbbbbbbbbbbbbbbbbbb1",
    answers := [⟨"dddddddddddddddddddddddd", JsVal.str "6"⟩],
    isDraft := false, submittedAt := 1500, lastModified := none, deleted := false }

/-- Store after the witness submit: the draft is soft-deleted and the
final response appended. -/
def c8Store2 : Store :=
  { cleanStore with responses := [{ c8Draft with deleted := true }, c8Final] }

/-- Witness for C8: the theorem applied to a concrete
saveDraft-then-submit run, hypotheses discharged by evaluation. -/
theorem c8_draft_supersession_witness :
    getDraft c8Store2 "bbbbbbbbbbbbbbbbbbbbbbb1" "cccccccccccccccccccccccc" =
      GetDraftOut.noDraft
  ∧ finalCount c8Store2 "cccccccccccccccccccccccc" "bbbbbbbbbbbbbbbbbbbbbbb1" = 1 :=
  c8_draft_supersession cleanStore c8Store1 c8Store2 "bbbbbbbbbbbbbbbbbbbbbbb1"
    "cccccccccccccccccccccccc"
    (AnswersIn.arr [⟨"dddddddddddddddddddddddd", JsVal.str "4"⟩])
    (AnswersIn.arr [⟨"dddddddddddddddddddddddd", JsVal.str "6"⟩])
    500 1500 c8Draft c8Final (Or.inl (by decide)) (by decide)

/-! ## C10: empty-answers submission -/

/-- C10: on an active, non-deleted, non-diary form with no required
questions and no existing live final response for the pair, submit()
with an empty answers array succeeds — every per-answer validation is
gated on a nonempty array — and persists a final response whose
answers list is empty. -/
theorem c10_empty_answers_submit (s : Store) (uid fid : String) (now : Nat) (form : Form)
    (hu : (findUserLive s uid).isSome = true)
    (hvalid : isValidObjectId fid = true)
    (hf : findFormAny s fid = some form)
    (hdel : form.deleted = false)
    (hact : form.isActive = true)
    (hdiary : form.type ≠ FType.diary)
    (hreq : ∀ q ∈ form.questions, q.required = false)
    (hnf : hasLiveFinal s fid uid = false) :
    submit s uid fid (AnswersIn.arr []) now =
      (SubmitOut.ok
        { formId := fid, userId := uid, answers := [], isDraft := false,
          submittedAt := now, lastModified := none, deleted := false },
       { s with responses := softDeleteDrafts fid uid s.responses ++
          [{ formId := fid, userId := uid, answers := [], isDraft := false,
             submittedAt := now, lastModified := none, deleted := false }] }) := by
  have hbeq : (form.type == FType.diary) = false := by
    cases hft : form.type with
    | diary => exact absurd hft hdiary
    | form => rfl
  have hne : (fid == "") = false := by
    by_cases he : fid = ""
    · subst he; exact absurd hvalid (by decide)
    · exact beq_eq_false_iff_ne.mpr he
  have hguard : (fid == "" || !isValidObjectId fid) = false := by
    rw [hne, hvalid]; rfl
  have hfilter : form.questions.filter (fun q => q.required) = [] :=
    List.filter_eq_nil_iff.mpr (fun q hq => by simp [hreq q hq])
  have hcheck : submitCheck s uid fid (AnswersIn.arr []) now = none := by
    unfold submitCheck
    cases hu2 : findUserLive s uid with
    | none => rw [hu2] at hu; simp at hu
    | some u =>
        simp only [hu2, hguard, Bool.false_eq_true, if_false, hf, hact, Bool.not_true,
          hbeq, Bool.false_and,
          show perAnswerCheck s form [] = none from rfl, hfilter,
          show requiredCheck s (List.map (fun (a : Answer) => a.questionId) []) [] = none
            from rfl,
          hnf]
  unfold submit
  rw [hcheck]
  exact rfl

/-- The empty final response of the C10 witness. -/
def c10Resp : Response :=
  { formId := "cccccccccccccccccccccccc", userId := "bbbbbbbbbbbbbbbbbbbbbbb1",
    answers := [], isDraft := false, submittedAt := 777, lastModified := none,
    deleted := false }

/-- Witness for C10: the theorem applied to the concrete clean store,
all hypotheses discharged by evaluation. -/
theorem c10_empty_answers_submit_witness :
    submit cleanStore "bbbbbbbbbbbbbbbbbbbbbbb1" "cccccccccccccccccccccccc"
        (AnswersIn.arr []) 777 =
      (SubmitOut.ok c10Resp,
       { cleanStore with responses :=
          (softDeleteDrafts "cccccccccccccccccccccccc" "bbbbbbbbbbbbbbbbbbbbbbb1"
              cleanStore.responses ++ [c10Resp]) }) :=
  c10_empty_answers_submit cleanStore "bbbbbbbbbbbbbbbbbbbbbbb1"
    "cccccccccccccccccccccccc" 777 scaleForm (by decide) (by decide) (by decide)
    (by decide) (by decide) (by decide) (by decide) (by decide)

/-! ## C6: submit never reads assignedUsers -/

/-- Replace the assignment list of every form carrying the given id,
leaving everything else intact. -/
def setAssignedUsers (fid : String) (l : List String) (s : Store) : Store :=
  { s with forms := s.forms.map (fun f =>
      if f._id == fid then { f with assignedUsers := l } else f) }

/-- The form lookup commutes with the assignment rewrite. -/
theorem findFormAny_setAssignedUsers (fid : String) (l : List String) (s : Store)
    (fid' : String) :
    findFormAny (setAssignedUsers fid l s) fid' =
    (findFormAny s fid').map (fun f =>
      if f._id == fid then { f with assignedUsers := l } else f) := by
  unfold findFormAny setAssignedUsers
  rw [List.find?_map]
  have hp : ((fun (f : Form) => f._id == fid') ∘ (fun (f : Form) =>
      if f._id == fid then { f with assignedUsers := l } else f)) =
      (fun (f : Form) => f._id == fid') := by
    funext f
    by_cases h : (f._id == fid) = true
    · simp [Function.comp, h]
    · simp [Function.comp, h]
  rw [hp]

/-- The per-answer validation only depends on the form's question
list. -/
theorem perAnswerCheck_form_congr {s : Store} {f₀ f₁ : Form}
    (hq : f₀.questions = f₁.questions) (answers : List Answer) :
    perAnswerCheck s f₀ answers = perAnswerCheck s f₁ answers := by
  unfold perAnswerCheck
  rw [hq]

/-- C6 amended: submit() never consults `assignedUsers` — its outcome
and the resulting stored responses are invariant under any rewrite of
a form's assignment list, so a user outside the assignment list is
treated exactly like an assigned one. -/
theorem c6_amended_submit_ignores_assignedUsers (s : Store) (fid : String)
    (l : List String) (uid fid' : String) (ans : AnswersIn) (now : Nat) :
    (submit (setAssignedUsers fid l s) uid fid' ans now).1 =
      (submit s uid fid' ans now).1
  ∧ (submit (setAssignedUsers fid l s) uid fid' ans now).2.responses =
      (submit s uid fid' ans now).2.responses := by
  have e3 : (setAssignedUsers fid l s).questions = s.questions := rfl
  have hcheck : submitCheck (setAssignedUsers fid l s) uid fid' ans now =
      submitCheck s uid fid' ans now := by
    unfold submitCheck
    rw [show findUserLive (setAssignedUsers fid l s) uid = findUserLive s uid from rfl,
        findFormAny_setAssignedUsers]
    cases findUserLive s uid with
    | none => rfl
    | some u =>
        cases hf : findFormAny s fid' with
        | none => rfl
        | some form =>
            by_cases hmod : (form._id == fid) = true
            · simp only [Option.map_some', if_pos hmod,
                perAnswerCheck_congr e3, requiredCheck_congr e3]
              exact rfl
            · simp only [Option.map_some', if_neg hmod,
                perAnswerCheck_congr e3, requiredCheck_congr e3]
              exact rfl
  constructor
  · unfold submit
    rw [hcheck]
    cases submitCheck s uid fid' ans now with
    | some e => rfl
    | none => rfl
  · unfold submit
    rw [hcheck]
    cases submitCheck s uid fid' ans now with
    | some e => rfl
    | none => rfl

/-! ## C9: the legacy single-active-form invariant -/

/-- Deactivating every form leaves no active form. -/
theorem filter_active_deactivateAll (l : List Form) :
    (l.map (fun f => { f with isActive := false })).filter (fun f => f.isActive) = [] := by
  induction l with
  | nil => rfl
  | cons f t ih => simpa using ih

/-- The ids of a form list are untouched by a map that preserves
`_id`. -/
theorem ids_map_of_preserves (h : Form → Form) (hh : ∀ f, (h f)._id = f._id)
    (l : List Form) :
    (l.map h).map (fun f => f._id) = l.map (fun f => f._id) := by
  induction l with
  | nil => rfl
  | cons f t ih => simp [hh f, ih]

/-- The ids of a form list are untouched by `updateFirst` with an
id-preserving update. -/
theorem ids_updateFirst_of_preserves (p : Form → Bool) (g : Form → Form)
    (hg : ∀ f, (g f)._id = f._id) (l : List Form) :
    (updateFirst p g l).map (fun f => f._id) = l.map (fun f => f._id) := by
  induction l with
  | nil => rfl
  | cons f t ih =>
      unfold updateFirst
      by_cases hp : p f = true
      · simp [hp, hg f]
      · simp [hp, ih]

/-- With pairwise-distinct ids, at most one form matches a given id. -/
theorem count_id_le_one {l : List Form} (h : (l.map (fun f => f._id)).Nodup)
    (fid : String) :
    (l.filter (fun f => f._id == fid)).length ≤ 1 := by
  induction l with
  | nil => simp
  | cons f t ih =>
      simp only [List.map_cons, List.nodup_cons] at h
      obtain ⟨hnot, hnd⟩ := h
      by_cases hp : (f._id == fid) = true
      · have hfid : f._id = fid := beq_iff_eq.mp hp
        have hturn : t.filter (fun g => g._id == fid) = [] := by
          rw [List.filter_eq_nil_iff]
          intro g hg hgid
          apply hnot
          rw [hfid]
          exact beq_iff_eq.mp hgid ▸ List.mem_map.mpr ⟨g, hg, rfl⟩
        simp [hp, hturn]
      · simp only [List.filter_cons, hp, Bool.false_eq_true, if_false]
        exact ih hnd
/-- The number of forms matching an id only depends on the id list. -/
theorem filter_id_length_eq {l₁ l₂ : List Form}
    (h : l₁.map (fun f => f._id) = l₂.map (fun f => f._id)) (fid : String) :
    (l₁.filter (fun f => f._id == fid)).length = (l₂.filter (fun f => f._id == fid)).length := by
  have e₁ : (l₁.filter (fun f => f._id == fid)).length =
      ((l₁.map (fun f => f._id)).filter (fun i => i == fid)).length := by
    rw [List.filter_map, List.length_map]
    rfl
  have e₂ : (l₂.filter (fun f => f._id == fid)).length =
      ((l₂.map (fun f => f._id)).filter (fun i => i == fid)).length := by
    rw [List.filter_map, List.length_map]
    rfl
  rw [e₁, e₂, h]

/-- After the update route's deactivate-others pass, every active
form carries the target id. -/
theorem active_imp_target_map (formIdP : String) (l : List Form) :
    ∀ f ∈ l.map (fun f => if f._id == formIdP then f else { f with isActive := false }),
      f.isActive = true → (f._id == formIdP) = true := by
  intro f hf hact
  obtain ⟨f₀, hf₀, hmap⟩ := List.mem_map.mp hf
  by_cases hp : (f₀._id == formIdP) = true
  · rw [if_pos hp] at hmap
    subst hmap
    exact hp
  · rw [if_neg hp] at hmap
    subst hmap
    simp at hact

/-- `updateFirst` with an id-preserving update keeps the property
that only the target id can be active (the update may activate the
target itself). -/
theorem active_imp_target_updateFirst (p : Form → Bool) (g : Form → Form)
    (hg : ∀ f, (g f)._id = f._id) (tgt : String)
    (hptgt : ∀ f, p f = (f._id == tgt)) :
    ∀ (l : List Form), (∀ f ∈ l, f.isActive = true → (f._id == tgt) = true) →
      ∀ f ∈ updateFirst p g l, f.isActive = true → (f._id == tgt) = true := by
  intro l
  induction l with
  | nil => intro _ f hf; simp [updateFirst] at hf
  | cons f₀ t ih =>
      intro hl f hf hact
      unfold updateFirst at hf
      by_cases hp : p f₀ = true
      · rw [if_pos hp] at hf
        rcases List.mem_cons.mp hf with h1 | h2
        · subst h1
          rw [hg f₀]
          rw [hptgt f₀] at hp
          exact hp
        · exact hl f (List.mem_cons_of_mem _ h2) hact
      · rw [if_neg hp] at hf
        rcases List.mem_cons.mp hf with h1 | h2
        · subst h1
          exact hl f (List.mem_cons_self _ _) hact
        · exact ih (fun x hx => hl x (List.mem_cons_of_mem _ hx)) f h2 hact

/-- If only the target id can be active, the active count is bounded
by the number of forms carrying the target id. -/
theorem length_filter_active_le_target (tgt : String) (l : List Form)
    (h : ∀ f ∈ l, f.isActive = true → (f._id == tgt) = true) :
    (l.filter (fun f => f.isActive)).length ≤ (l.filter (fun f => f._id == tgt)).length := by
  induction l with
  | nil => simp
  | cons f t ih =>
      have ht := ih (fun x hx => h x (List.mem_cons_of_mem _ hx))
      by_cases ha : f.isActive = true
      · have hp := h f (List.mem_cons_self _ _) ha
        simp only [List.filter_cons, ha, hp, if_true, List.length_cons]
        omega
      · by_cases hp : (f._id == tgt) = true
        · simp only [List.filter_cons, ha, hp, Bool.false_eq_true, if_false, if_true,
            List.length_cons]
          omega
        · simp only [List.filter_cons, ha, hp, Bool.false_eq_true, if_false]
          exact ht

/-- A first-match update that never activates an inactive form does
not increase the active count. -/
theorem activeCount_updateFirst_le (p : Form → Bool) (g : Form → Form)
    (hg : ∀ f, (g f).isActive = true → f.isActive = true) :
    ∀ (l : List Form),
      ((updateFirst p g l).filter (fun f => f.isActive)).length ≤
        (l.filter (fun f => f.isActive)).length := by
  intro l
  induction l with
  | nil => simp [updateFirst]
  | cons f t ih =>
      unfold updateFirst
      by_cases hp : p f = true
      · rw [if_pos hp]
        by_cases hact : (g f).isActive = true
        · have hf := hg f hact
          simp only [List.filter_cons, hact, hf, if_true, List.length_cons]
          omega
        · simp only [List.filter_cons, hact, Bool.false_eq_true, if_false]
          by_cases hfa : f.isActive = true
          · simp only [hfa, if_true, List.length_cons]
            omega
          · simp only [hfa, Bool.false_eq_true, if_false]
            omega
      · rw [if_neg hp]
        simp only [List.filter_cons]
        by_cases hfa : f.isActive = true
        · simp only [hfa, if_true, List.length_cons]
          omega
        · simp only [hfa, Bool.false_eq_true, if_false]
          exact ih

/-- Create-form preserves id-uniqueness (with a fresh generated id)
and the at-most-one-active invariant: when the new form is active it
first deactivates every other form. -/
theorem createForm_preserves (s : Store) (caller : String)
    (title description : Option String) (questions : Option (List FormQuestionIn))
    (isActive : Option Bool) (newId : String)
    (hfresh : (s.forms.any (fun f => f._id == newId)) = false)
    (hnodup : formIdsNodup s) (hone : atMostOneActive s) :
    formIdsNodup (createForm s caller title description questions isActive newId).2 ∧
    atMostOneActive (createForm s caller title description questions isActive newId).2 := by
  have hfresh' := List.any_eq_false.mp hfresh
  have hnotin : newId ∉ s.forms.map (fun f => f._id) := by
    intro hmem
    obtain ⟨f, hf, hfid⟩ := List.mem_map.mp hmem
    exact hfresh' f hf (beq_iff_eq.mpr hfid)
  have hsinv : formIdsNodup s ∧ atMostOneActive s := ⟨hnodup, hone⟩
  simp only [createForm]
  repeat' split
  any_goals exact hsinv
  -- active-create branch
  case _ h =>
    constructor
    · unfold formIdsNodup
      simp only [List.map_append, List.map_cons, List.map_nil]
      rw [ids_map_of_preserves (fun f => { f with isActive := false }) (fun f => rfl)]
      rw [List.nodup_append]
      exact ⟨hnodup, List.nodup_singleton _,
        fun a ha hb => absurd (List.mem_singleton.mp hb ▸ ha) hnotin⟩
    · unfold atMostOneActive
      simp only [List.filter_append, filter_active_deactivateAll, List.nil_append]
      exact le_trans (List.length_filter_le _ _) (by simp)
  -- inactive-create branch
  case _ h =>
    constructor
    · unfold formIdsNodup
      simp only [List.map_append, List.map_cons, List.map_nil]
      rw [List.nodup_append]
      exact ⟨hnodup, List.nodup_singleton _,
        fun a ha hb => absurd (List.mem_singleton.mp hb ▸ ha) hnotin⟩
    · unfold atMostOneActive
      have hia : (isActive.getD true) = false := by
        cases hb : isActive.getD true with
        | true => exact absurd hb h
        | false => rfl
      simp only [List.filter_append, List.filter_cons, hia, Bool.false_eq_true, if_false,
        List.filter_nil, List.append_nil]
      exact hone

/-- Update-form preserves id-uniqueness and the at-most-one-active
invariant: when the target ends active it first deactivates every
other form; otherwise it never activates anything. -/
theorem updateForm_preserves (s : Store) (caller formIdP : String)
    (title description : Option String) (questions : Option (List FormQuestionIn))
    (isActive : Option Bool)
    (hnodup : formIdsNodup s) (hone : atMostOneActive s) :
    formIdsNodup (updateForm s caller formIdP title description questions isActive).2 ∧
    atMostOneActive (updateForm s caller formIdP title description questions isActive).2 := by
  have hsinv : formIdsNodup s ∧ atMostOneActive s := ⟨hnodup, hone⟩
  have hidsU : ∀ l : List Form,
      (updateFirst (fun f => f._id == formIdP)
        (fun f => applyFormUpdate f title description questions isActive) l).map
          (fun f => f._id) = l.map (fun f => f._id) :=
    ids_updateFirst_of_preserves _ _ (fun f => rfl)
  have hidsM : (s.forms.map (fun f =>
      if f._id == formIdP then f else { f with isActive := false })).map
        (fun f => f._id) = s.forms.map (fun f => f._id) :=
    ids_map_of_preserves _ (fun f => by
      by_cases hp : (f._id == formIdP) = true
      · rw [if_pos hp]
      · rw [if_neg hp]) s.forms
  simp only [updateForm]
  repeat' split
  any_goals exact hsinv
  -- target ends active: all others were deactivated first
  case _ form hform hvalid hqex h =>
    refine ⟨?_, ?_⟩
    · exact (((hidsU _).trans hidsM).symm ▸ hnodup :
        ((updateFirst (fun f => f._id == formIdP)
          (fun f => applyFormUpdate f title description questions isActive)
          (s.forms.map (fun f =>
            if f._id == formIdP then f else { f with isActive := false }))).map
            (fun f => f._id)).Nodup)
    · have h2 := active_imp_target_updateFirst
        (fun f => f._id == formIdP)
        (fun f => applyFormUpdate f title description questions isActive)
        (fun f => rfl) formIdP (fun f => rfl) _
        (active_imp_target_map formIdP s.forms)
      have h3 := length_filter_active_le_target formIdP _ h2
      have h4 := filter_id_length_eq ((hidsU _).trans hidsM) formIdP
      have h5 := count_id_le_one hnodup formIdP
      exact le_trans h3 (le_trans (le_of_eq h4) h5)
  -- target ends inactive: nothing is activated
  case _ form hform hvalid hqex h =>
    refine ⟨?_, ?_⟩
    · exact ((hidsU s.forms).symm ▸ hnodup :
        ((updateFirst (fun f => f._id == formIdP)
          (fun f => applyFormUpdate f title description questions isActive)
          s.forms).map (fun f => f._id)).Nodup)
    · have hg : ∀ f : Form,
          (applyFormUpdate f title description questions isActive).isActive = true →
          f.isActive = true := by
        intro f hf
        cases hia : isActive with
        | none =>
            rw [show (applyFormUpdate f title description questions isActive).isActive =
              isActive.getD f.isActive from rfl, hia] at hf
            exact hf
        | some b =>
            rw [hia] at h
            rw [show (applyFormUpdate f title description questions isActive).isActive =
              isActive.getD f.isActive from rfl, hia] at hf
            simp only [Option.getD_some] at h hf
            exact absurd hf h
      have h6 := activeCount_updateFirst_le (fun f => f._id == formIdP)
        (fun f => applyFormUpdate f title description questions isActive) hg s.forms
      exact le_trans h6 hone

/-- C9: from any store with Mongo-unique form ids and at most one
active form (for instance an empty store), any sequence of
create-form and update-form operations whose generated ids are fresh
leaves at most one form active — every operation that results in an
active form first deactivates all others. -/
theorem c9_single_active_form (ops : List FormOp) (s : Store)
    (h1 : formIdsNodup s) (h2 : atMostOneActive s) (h3 : opsFresh s ops = true) :
    atMostOneActive (applyFormOps s ops) := by
  induction ops generalizing s with
  | nil => exact h2
  | cons op t ih =>
      unfold opsFresh at h3
      rw [Bool.and_eq_true] at h3
      obtain ⟨hf, ht⟩ := h3
      have hstep : formIdsNodup (applyFormOp s op) ∧ atMostOneActive (applyFormOp s op) := by
        cases op with
        | create c ti d q ia nid =>
            unfold applyFormOp
            refine createForm_preserves s c ti d q ia nid ?_ h1 h2
            unfold opFresh at hf
            simpa using hf
        | update c fid ti d q ia =>
            unfold applyFormOp
            exact updateForm_preserves s c fid ti d q ia h1 h2
      unfold applyFormOps
      rw [List.foldl_cons]
      exact ih (applyFormOp s op) hstep.1 hstep.2 ht

/-- The empty-forms store of the C9 witness. -/
def c9Store0 : Store :=
  { users := [adminUser], questions := [scaleQ], forms := [], responses := [] }

/-- The C9 witness run: two active form creations followed by a
reactivation of the first form. -/
def c9Ops : List FormOp :=
  [FormOp.create "aaaaaaaaaaaaaaaaaaaaaaaa" (some "Primeiro") none
     (some [⟨"dddddddddddddddddddddddd", none, none⟩]) (some true) "111111111111111111111111",
   FormOp.create "aaaaaaaaaaaaaaaaaaaaaaaa" (some "Segundo") none
     (some [⟨"dddddddddddddddddddddddd", none, none⟩]) (some true) "222222222222222222222222",
   FormOp.update "aaaaaaaaaaaaaaaaaaaaaaaa" "111111111111111111111111" none none none
     (some true)]

/-- Witness for C9: the theorem applied to the concrete run, all
hypotheses discharged by evaluation. -/
theorem c9_single_active_form_witness :
    atMostOneActive (applyFormOps c9Store0 c9Ops) :=
  c9_single_active_form c9Ops c9Store0 (by simp [formIdsNodup, c9Store0])
    (by simp [atMostOneActive, c9Store0]) (by decide)
